import Mathlib

/-!
Verification of the rawfile-localpv operator core against its specification.

The definitions below are a shallow embedding of the Python sources
`src/charm.py`, `src/manifests.py` and `src/literals.py`:
pure functions become Lean functions, in-place mutation of resource objects
becomes explicit record rebuilding, a raised exception that aborts a patch
becomes `Except.error`, and the event-driven reconcile cycle becomes a pure
function from the external responses it observes to an outcome record.
-/

namespace RawfilePV

/-- `literals.py`: `DRIVER_NAME = "rawfile.csi.openebs.io"`. -/
def DRIVER_NAME : String := "rawfile.csi.openebs.io"

/-- `literals.py`: `DEFAULT_NAMESPACE = "default"`. -/
def DEFAULT_NAMESPACE : String := "default"

/-- Python truthiness of an optional string: `None` and `""` are falsy. -/
def strTruthy : Option String → Bool
  | none => false
  | some s => s != ""

/-- The raw charm configuration: one optional string per option the
manifests code reads, plus the boolean `create-namespace` option used by
the charm.  `some ""` represents an option explicitly set to the empty
string; `none` represents an absent option. -/
structure Config where
  namespaceOpt : Option String
  createNamespace : Bool
  nodeSelector : Option String
  nodeStoragePath : Option String
  rbacFormatter : Option String
  driverFormatter : Option String
  storageClassName : Option String
  reclaimPolicy : Option String
deriving DecidableEq, Repr

/-- `RawfileLocalPVManifests.config` removes keys whose value is `""` or
`None`; composed with `dict.get`, an option therefore reads as `none`
when absent or empty.  This models `self.manifests.config.get(key)`. -/
def configGet : Option String → Option String
  | none => none
  | some s => if s = "" then none else some s

/-- `charm.py` `_configured_namespace`: `str(self.config.get(NAMESPACE_CONFIG)
or DEFAULT_NAMESPACE)` — empty or absent falls back to `"default"`. -/
def configuredNamespace (cfg : Config) : String :=
  match cfg.namespaceOpt with
  | none => DEFAULT_NAMESPACE
  | some s => if s = "" then DEFAULT_NAMESPACE else s

mutual

/-- Python `str.format` rendering over the character list of a template,
supporting exactly the two substitution variables `name` and `app` of the
source (`fmt_context = {"name": ..., "app": ...}`), doubled braces as
escapes, and failing (as `str.format` raises) on any other replacement
field or a stray closing brace. -/
def formatChars (nameVal appVal : List Char) : List Char → Option (List Char)
  | [] => some []
  | '{' :: '{' :: rest => (formatChars nameVal appVal rest).map (fun t => '{' :: t)
  | '}' :: '}' :: rest => (formatChars nameVal appVal rest).map (fun t => '}' :: t)
  | '{' :: rest => fieldChars nameVal appVal [] rest
  | '}' :: _ => none
  | c :: rest => (formatChars nameVal appVal rest).map (fun t => c :: t)

/-- Scans the replacement-field name between `{` and `}`; `acc` holds the
field characters seen so far, in reverse. -/
def fieldChars (nameVal appVal acc : List Char) : List Char → Option (List Char)
  | [] => none
  | '}' :: rest =>
    if acc.reverse = ['n', 'a', 'm', 'e'] then
      (formatChars nameVal appVal rest).map (fun t => nameVal ++ t)
    else if acc.reverse = ['a', 'p', 'p'] then
      (formatChars nameVal appVal rest).map (fun t => appVal ++ t)
    else none
  | c :: rest => fieldChars nameVal appVal (c :: acc) rest

end

/-- Python `template.format(name=nameVal, app=appVal)` for the two-variable
context used throughout `manifests.py`; `none` models a raised exception. -/
def pyFormat (template nameVal appVal : String) : Option String :=
  (formatChars nameVal.toList appVal.toList template.toList).map List.asString

/-- `CSIDriverNameMixin.csi_driver_name`: the configured formatter rendered
with `name = DRIVER_NAME` and `app =` the application name, or `DRIVER_NAME`
itself when the formatter option is unset; `none` models the exception
`str.format` raises on a malformed template. -/
def csiDriverName (cfg : Config) (app : String) : Option String :=
  match configGet cfg.driverFormatter with
  | none => some DRIVER_NAME
  | some f => pyFormat f DRIVER_NAME app

/-- An association list with Python-dict semantics: insertion order kept,
assignment to an existing key updates it in place. -/
abbrev StrDict := List (String × String)

/-- Python `d[k] = v` on an insertion-ordered dict. -/
def dictInsert (k v : String) : StrDict → StrDict
  | [] => [(k, v)]
  | (k0, v0) :: rest => if k0 = k then (k0, v) :: rest else (k0, v0) :: dictInsert k v rest

/-- lightkube `EnvVar`: only the fields the patches read. -/
structure EnvVar where
  name : String
  value : Option String
deriving DecidableEq, Repr

/-- lightkube `Container`: only the fields the patches read. -/
structure Container where
  name : String
  env : Option (List EnvVar)
deriving DecidableEq, Repr

/-- lightkube `HostPathVolumeSource`. -/
structure HostPathVolumeSource where
  path : Option String
deriving DecidableEq, Repr

/-- lightkube `Volume`. -/
structure Volume where
  name : String
  hostPath : Option HostPathVolumeSource
deriving DecidableEq, Repr

/-- lightkube `PodSpec`: only the fields the patches read. -/
structure PodSpec where
  containers : Option (List Container)
  volumes : Option (List Volume)
  nodeSelector : Option StrDict
deriving DecidableEq, Repr

/-- lightkube `PodTemplateSpec`. -/
structure PodTemplateSpec where
  spec : Option PodSpec
deriving DecidableEq, Repr

/-- The `spec` of a lightkube `DaemonSet`/`StatefulSet`: only the pod
template is read by the patches. -/
structure WorkloadSpec where
  template : Option PodTemplateSpec
deriving DecidableEq, Repr

/-- lightkube rbac `Subject` (`namespace` is a Lean keyword, hence
`namespaceOpt`). -/
structure Subject where
  kind : String
  name : String
  namespaceOpt : Option String
deriving DecidableEq, Repr

/-- lightkube rbac `RoleRef`: a required field of both binding kinds. -/
structure RoleRef where
  kind : String
  name : String
deriving DecidableEq, Repr

/-- lightkube `ObjectMeta`: only the fields the patches read. -/
structure ObjectMeta where
  name : Option String
  namespaceOpt : Option String
  labels : StrDict
deriving DecidableEq, Repr

/-- The kind-specific part of a parsed resource object.  The constructors
are the kinds `manifests.py` dispatches on via `isinstance`/`obj.kind`;
`otherKind` covers every other document of the chart, carrying its kind
string and whether lightkube classifies it as a `NamespacedResource`. -/
inductive ResourceData
  | storageClass (provisioner : Option String) (reclaimPolicy : Option String)
  | daemonSet (spec : Option WorkloadSpec)
  | statefulSet (spec : Option WorkloadSpec)
  | csiDriver
  | clusterRole
  | clusterRoleBinding (subjects : Option (List Subject)) (roleRef : RoleRef)
  | roleBinding (subjects : Option (List Subject)) (roleRef : RoleRef)
  | otherKind (kindTag : String) (namespaced : Bool)
deriving DecidableEq, Repr

/-- A parsed resource object: a mutable metadata block plus kind-specific
data. -/
structure Resource where
  metadata : Option ObjectMeta
  data : ResourceData
deriving DecidableEq, Repr

/-- The `obj.kind` string checked by `CSIDriverAdjustments`. -/
def Resource.kindTag (r : Resource) : String :=
  match r.data with
  | .storageClass _ _ => "StorageClass"
  | .daemonSet _ => "DaemonSet"
  | .statefulSet _ => "StatefulSet"
  | .csiDriver => "CSIDriver"
  | .clusterRole => "ClusterRole"
  | .clusterRoleBinding _ _ => "ClusterRoleBinding"
  | .roleBinding _ _ => "RoleBinding"
  | .otherKind k _ => k

/-- Whether lightkube classifies the object as a `NamespacedResource`
(`isinstance(obj, NamespacedResource)` in `AdjustNamespace`); the workload
kinds and `RoleBinding` are namespaced, the storage, CSI-driver and
cluster-RBAC kinds are cluster-scoped. -/
def Resource.namespaced (r : Resource) : Bool :=
  match r.data with
  | .storageClass _ _ => false
  | .daemonSet _ => true
  | .statefulSet _ => true
  | .csiDriver => false
  | .clusterRole => false
  | .clusterRoleBinding _ _ => false
  | .roleBinding _ _ => true
  | .otherKind _ b => b

/-- `AdjustNamespace.__call__`: for a namespaced resource with metadata,
set `metadata.namespace` to the configured namespace option (which is
`None` when unset — the charm-level default is not applied here). -/
def adjustNamespace (cfg : Config) (r : Resource) : Resource :=
  if r.namespaced then
    match r.metadata with
    | none => r
    | some m => { r with metadata := some { m with namespaceOpt := configGet cfg.namespaceOpt } }
  else r

/-- `ConfigureStorageClass.__call__`: on a `StorageClass` with truthy
`metadata.name`, assigns `metadata.name` to the `storage-class-name`
option, `provisioner` to the computed driver name and `reclaimPolicy` to
the `storage-class-reclaim-policy` option.  Note that the two option
reads log a warning when the option is unset but the assignment is made
unconditionally, so an unset option clears the field to `None`. -/
def configureStorageClass (cfg : Config) (app : String) (r : Resource) : Except String Resource :=
  match r.data with
  | .storageClass _ _ =>
    match r.metadata with
    | none => .ok r
    | some m =>
      if strTruthy m.name then
        match csiDriverName cfg app with
        | none => .error "csi-driver-formatter format error"
        | some d =>
          .ok { metadata := some { m with name := configGet cfg.storageClassName },
                data := .storageClass (some d) (configGet cfg.reclaimPolicy) }
      else .ok r
  | _ => .ok r

/-- `CSIDriverAdjustments.__call__`: on an object with truthy metadata name
whose `kind` string is `"CSIDriver"`, sets `metadata.name` to the computed
driver name. -/
def csiDriverAdjustments (cfg : Config) (app : String) (r : Resource) : Except String Resource :=
  match r.metadata with
  | none => .ok r
  | some m =>
    if strTruthy m.name then
      if r.kindTag = "CSIDriver" then
        match csiDriverName cfg app with
        | none => .error "csi-driver-formatter format error"
        | some d => .ok { r with metadata := some { m with name := some d } }
      else .ok r
    else .ok r

/-- Python `raw.split(" ")` over the character list: split at every single
space, keeping empty tokens (`"a=1  b=2"` gives an empty middle token, and
`""` gives one empty token). -/
def splitOnSpace : List Char → List (List Char)
  | [] => [[]]
  | c :: rest =>
    if c = ' ' then [] :: splitOnSpace rest
    else
      match splitOnSpace rest with
      | [] => [[c]]
      | t :: ts => (c :: t) :: ts

/-- Python `s.strip()` over the character list: drop leading and trailing
whitespace. -/
def trimChars (l : List Char) : List Char :=
  ((l.dropWhile Char.isWhitespace).reverse.dropWhile Char.isWhitespace).reverse

/-- Python `s.split("=", 1)`: `none` when the string has no `=` (the
one-part case whose token is dropped), otherwise the parts before and
after the first `=`. -/
def splitEqOnce : List Char → Option (List Char × List Char)
  | [] => none
  | c :: rest =>
    if c = '=' then some ([], rest)
    else
      match splitEqOnce rest with
      | none => none
      | some (k, v) => some (c :: k, v)

/-- One token of `DaemonSetAdjustments._parse_node_selector`: strip it,
skip it when empty, split at the first `=` only (`split("=", 1)`), strip
key and value, drop the token when it has no `=` or its stripped key is
empty, and otherwise assign into the dict. -/
def parseTokenChars (acc : StrDict) (item : List Char) : StrDict :=
  let clean := trimChars item
  if clean = [] then acc
  else
    match splitEqOnce clean with
    | none => acc
    | some (k, v) =>
      let key := trimChars k
      let value := trimChars v
      if key = [] then acc else dictInsert key.asString value.asString acc

/-- `DaemonSetAdjustments._parse_node_selector`: `None` when the option is
unset (or empty, which the cleaned config view removes), otherwise the
dict built from the space-separated tokens. -/
def parseNodeSelector (cfg : Config) : Option StrDict :=
  match configGet cfg.nodeSelector with
  | none => none
  | some raw => some ((splitOnSpace raw.toList).foldl parseTokenChars [])

/-- The socket-dir host path written by `DaemonSetAdjustments`. -/
def socketDirPath (app : String) : String :=
  "/var/lib/kubelet/plugins/" ++ app ++ "-rawfile-csi"

/-- The `DRIVER_REG_SOCK_PATH` value written by `DaemonSetAdjustments`. -/
def regSockPath (app : String) : String :=
  "/var/lib/kubelet/plugins/" ++ app ++ "-rawfile-csi/csi.sock"

/-- The volume loop of `DaemonSetAdjustments.__call__`: rewrite the
`socket-dir` host path to the fixed plugin path and the `data-dir` host
path to the configured storage path (skipped with a warning when unset);
either rewrite requires the volume to carry a `hostPath`. -/
def patchVolume (cfg : Config) (app : String) (v : Volume) : Volume :=
  let v1 :=
    if v.name = "socket-dir" then
      match v.hostPath with
      | some hp => { v with hostPath := some { hp with path := some (socketDirPath app) } }
      | none => v
    else v
  if v1.name = "data-dir" then
    match v1.hostPath with
    | some hp =>
      match configGet cfg.nodeStoragePath with
      | none => v1
      | some sp => { v1 with hostPath := some { hp with path := some sp } }
    | none => v1
  else v1

/-- The inner env loop of `DaemonSetAdjustments.__call__`: set the value of
the first env var named `DRIVER_REG_SOCK_PATH` (the loop breaks after the
first hit). -/
def setFirstRegSock (app : String) : List EnvVar → List EnvVar
  | [] => []
  | e :: rest =>
    if e.name = "DRIVER_REG_SOCK_PATH" then { e with value := some (regSockPath app) } :: rest
    else e :: setFirstRegSock app rest

/-- The body run for the first container named `node-driver-registrar`:
return unchanged (with a warning) when its env list is falsy, otherwise
set the registration socket path env var. -/
def patchRegistrarContainer (app : String) (c : Container) : Container :=
  match c.env with
  | none => c
  | some [] => c
  | some evs => { c with env := some (setFirstRegSock app evs) }

/-- The container loop of `DaemonSetAdjustments.__call__`: only the first
container named `node-driver-registrar` is touched (the loop breaks after
it). -/
def patchRegistrarList (app : String) : List Container → List Container
  | [] => []
  | c :: rest =>
    if c.name = "node-driver-registrar" then patchRegistrarContainer app c :: rest
    else c :: patchRegistrarList app rest

/-- The containers step of `DaemonSetAdjustments.__call__`: a falsy
container list (`if not containers`) is returned as is (after a warning),
otherwise the registrar container is patched. -/
def dsContainersStep (app : String) : Option (List Container) → Option (List Container)
  | none => none
  | some [] => some []
  | some cs => some (patchRegistrarList app cs)

/-- `DaemonSetAdjustments.__call__`: on the DaemonSet named exactly
`rawfile-csi-node` with full spec/template/pod-spec structure and a
non-empty volume list, assigns the parsed node selector, rewrites the
`socket-dir`/`data-dir` host paths, and (when the container list is
truthy) patches the `node-driver-registrar` env; when the volume list is
absent or empty the patch returns before any of these mutations. -/
def daemonSetAdjustments (cfg : Config) (app : String) (r : Resource) : Resource :=
  match r.data with
  | .daemonSet dsSpec =>
    match r.metadata with
    | none => r
    | some m =>
      if strTruthy m.name then
        if m.name = some "rawfile-csi-node" then
          match dsSpec with
          | none => r
          | some wspec =>
            match wspec.template with
            | none => r
            | some tmpl =>
              match tmpl.spec with
              | none => r
              | some pspec =>
                match pspec.volumes with
                | none => r
                | some [] => r
                | some vols =>
                  let vols2 := vols.map (patchVolume cfg app)
                  let sel := parseNodeSelector cfg
                  let conts2 := dsContainersStep app pspec.containers
                  let pspec2 : PodSpec :=
                    { containers := conts2, volumes := some vols2, nodeSelector := sel }
                  { r with data := .daemonSet (some { template := some { spec := some pspec2 } }) }
        else r
      else r
  | _ => r

/-- Modelled from the spec: `ManifestLabel` lives in the external
`ops.manifests` library, not under src/.  The spec says it "stamps a label
identifying the owning manifest set, used later by the Collision Analyzer
to distinguish mine from foreign".  We model it as inserting a fixed
ownership-label key, valued with the manifest set name, into
`metadata.labels` of any object carrying metadata. -/
def OWNERSHIP_LABEL_KEY : String := "juju.io/manifest"

/-- The manifest set name from `RawfileLocalPVManifests.__init__`
(`super().__init__("rawfile-local-pv", ...)`). -/
def MANIFEST_SET_NAME : String := "rawfile-local-pv"

/-- Modelled from the spec: the Ownership Label patch (see
`OWNERSHIP_LABEL_KEY`). -/
def manifestLabel (r : Resource) : Resource :=
  match r.metadata with
  | none => r
  | some m =>
    { r with metadata := some { m with labels := dictInsert OWNERSHIP_LABEL_KEY MANIFEST_SET_NAME m.labels } }

/-- `RBACAdjustments._rename`: the original name when the
`rbac-name-formatter` option is unset, otherwise the formatter rendered
with `name =` the original name and `app =` the application name; `none`
models the exception a malformed template raises. -/
def rbacRename (cfg : Config) (app : String) (name : String) : Option String :=
  match configGet cfg.rbacFormatter with
  | none => some name
  | some f => pyFormat f name app

/-- The subject loop of `RBACAdjustments.__call__`: every subject of kind
`ServiceAccount` has its namespace set to the configured namespace
option. -/
def patchSubject (ns : Option String) (s : Subject) : Subject :=
  if s.kind = "ServiceAccount" then { s with namespaceOpt := ns } else s

/-- `RBACAdjustments.__call__`: on objects with truthy metadata name,
renames ClusterRole/ClusterRoleBinding through `_rename`; on bindings,
rewrites ServiceAccount subjects' namespaces and, when the roleRef kind is
`ClusterRole`, renames `roleRef.name` with the same function. -/
def rbacAdjustments (cfg : Config) (app : String) (r : Resource) : Except String Resource :=
  let ns := configGet cfg.namespaceOpt
  match r.metadata with
  | none => .ok r
  | some m =>
    match m.name with
    | none => .ok r
    | some n =>
      if n = "" then .ok r
      else
        match r.data with
        | .clusterRole =>
          match rbacRename cfg app n with
          | none => .error "rbac-name-formatter format error"
          | some n2 => .ok { r with metadata := some { m with name := some n2 } }
        | .clusterRoleBinding subjects roleRef =>
          match rbacRename cfg app n with
          | none => .error "rbac-name-formatter format error"
          | some n2 =>
            let subjects2 := subjects.map (List.map (patchSubject ns))
            if roleRef.kind = "ClusterRole" then
              match rbacRename cfg app roleRef.name with
              | none => .error "rbac-name-formatter format error"
              | some rr2 =>
                .ok { metadata := some { m with name := some n2 },
                      data := .clusterRoleBinding subjects2 { roleRef with name := rr2 } }
            else
              .ok { metadata := some { m with name := some n2 },
                    data := .clusterRoleBinding subjects2 roleRef }
        | .roleBinding subjects roleRef =>
          let subjects2 := subjects.map (List.map (patchSubject ns))
          if roleRef.kind = "ClusterRole" then
            match rbacRename cfg app roleRef.name with
            | none => .error "rbac-name-formatter format error"
            | some rr2 => .ok { r with data := .roleBinding subjects2 { roleRef with name := rr2 } }
          else .ok { r with data := .roleBinding subjects2 roleRef }
        | _ => .ok r

/-- The env loop of `UpdateCSIDriverName.__call__`: set the value of every
env var named `PROVISIONER_NAME`. -/
def setProvisionerEnv (d : String) (e : EnvVar) : EnvVar :=
  if e.name = "PROVISIONER_NAME" then { e with value := some d } else e

/-- The container loop of `UpdateCSIDriverName.__call__`: for every
container named `csi-driver`, update its env vars (`container.env or []`
tolerates an absent env list). -/
def patchCsiContainer (d : String) (c : Container) : Container :=
  if c.name = "csi-driver" then
    match c.env with
    | none => c
    | some evs => { c with env := some (evs.map (setProvisionerEnv d)) }
  else c

/-- Whether some `csi-driver` container holds a `PROVISIONER_NAME` env var:
exactly then does the loop body evaluate `self.csi_driver_name`, so exactly
then can a malformed formatter raise. -/
def needsDriverName (cs : List Container) : Bool :=
  cs.any (fun c => c.name = "csi-driver" && (c.env.getD []).any (fun e => e.name = "PROVISIONER_NAME"))

/-- The container loop of `UpdateCSIDriverName.__call__` over the whole
list, evaluating the driver name lazily as the source does. -/
def updateContainers (cfg : Config) (app : String) (cs : List Container) : Except String (List Container) :=
  if needsDriverName cs then
    match csiDriverName cfg app with
    | none => .error "csi-driver-formatter format error"
    | some d => .ok (cs.map (patchCsiContainer d))
  else .ok cs

/-- The body of `UpdateCSIDriverName.__call__` acting on the `spec` of a
DaemonSet/StatefulSet.  `if not obj.spec` and `if not obj.spec.template.spec`
are the only structural guards in the source: an absent `template` makes
`obj.spec.template.spec` raise `AttributeError`, and an absent container
list makes the `for` loop raise `TypeError`; both raised exceptions are
modelled as `.error`. -/
def updateWorkload (cfg : Config) (app : String) : Option WorkloadSpec → Except String (Option WorkloadSpec)
  | none => .ok none
  | some wspec =>
    match wspec.template with
    | none => .error "AttributeError: spec.template is None"
    | some tmpl =>
      match tmpl.spec with
      | none => .ok (some wspec)
      | some pspec =>
        match pspec.containers with
        | none => .error "TypeError: containers is None"
        | some cs =>
          (updateContainers cfg app cs).map
            (fun cs2 => some { template := some { spec := some { pspec with containers := some cs2 } } })

/-- `UpdateCSIDriverName.__call__`: applies `updateWorkload` to DaemonSets
and StatefulSets with truthy metadata name, and no-ops on every other
kind. -/
def updateCSIDriverName (cfg : Config) (app : String) (r : Resource) : Except String Resource :=
  match r.data with
  | .daemonSet w =>
    match r.metadata with
    | none => .ok r
    | some m =>
      if strTruthy m.name then
        (updateWorkload cfg app w).map (fun w2 => { r with data := .daemonSet w2 })
      else .ok r
  | .statefulSet w =>
    match r.metadata with
    | none => .ok r
    | some m =>
      if strTruthy m.name then
        (updateWorkload cfg app w).map (fun w2 => { r with data := .statefulSet w2 })
      else .ok r
  | _ => .ok r

/-- The manipulation list of `RawfileLocalPVManifests.__init__`, in its
declared order: `AdjustNamespace`, `ConfigureStorageClass`,
`CSIDriverAdjustments`, `DaemonSetAdjustments`, `ManifestLabel`,
`RBACAdjustments`, `UpdateCSIDriverName`, applied to one resource. -/
def applyManipulations (cfg : Config) (app : String) (r : Resource) : Except String Resource := do
  let r1 := adjustNamespace cfg r
  let r2 ← configureStorageClass cfg app r1
  let r3 ← csiDriverAdjustments cfg app r2
  let r4 := daemonSetAdjustments cfg app r3
  let r5 := manifestLabel r4
  let r6 ← rbacAdjustments cfg app r5
  updateCSIDriverName cfg app r6

/-- The Patch Pipeline over a whole catalog: every manipulation applied to
every object. -/
def patchCatalog (cfg : Config) (app : String) (rs : List Resource) : Except String (List Resource) :=
  rs.mapM (applyManipulations cfg app)

/-- The ops status classes the charm sets. -/
inductive Status
  | active (msg : String)
  | blocked (msg : String)
  | waiting (msg : String)
  | maintenance (msg : String)
deriving DecidableEq, Repr

/-- The responses of the external world one reconcile cycle observes:
leadership, whether the triggering event is a stop/remove event, the
result of `client.get(Namespace, ...)` and of `client.create(Namespace(...))`
(`none` is success, `some c` an `ApiError` whose status code is `c`), the
per-manifest-set conflict counts of the collision analysis, the result of
`apply_manifests` (`none` success, `some msg` a `ManifestClientError` with
message `msg`), and the collector's list of unready components. -/
structure ReconcileEnv where
  isLeader : Bool
  eventStopOrRemove : Bool
  nsGetError : Option Nat
  nsCreateError : Option Nat
  conflictCounts : List Nat
  applyError : Option String
  unready : List String
deriving DecidableEq, Repr

/-- What one reconcile cycle did: the terminating flag it leaves behind,
the status in effect when the cycle ended (transient Maintenance statuses
along the successful path are not recorded; `none` means the cycle ended
without setting one, as on a non-leader teardown), and which externally
visible steps were performed. -/
structure Outcome where
  terminating : Bool
  status : Option Status
  nsChecked : Bool
  nsCreated : Bool
  collisionsAnalyzed : Bool
  applyAttempted : Bool
  purgeAttempted : Bool
  purgeIgnoresNotFound : Bool
  purgeIgnoresUnauthorized : Bool
deriving DecidableEq, Repr

/-- The message built by `_prevent_collisions` for a non-zero total
conflict count. -/
def collisionMsg (n : Nat) : String :=
  toString n ++ " Kubernetes resource collision" ++ (if n != 1 then "s" else "")
    ++ " (action: list-resources)"

/-- `_update_status`: Waiting with the joined unready list, or Active
"Ready". -/
def updateStatusPhase (env : ReconcileEnv) (o : Outcome) : Outcome :=
  if env.unready = [] then { o with status := some (.active "Ready") }
  else { o with status := some (.waiting (String.intercalate ", " env.unready)) }

/-- The cycle from `_prevent_collisions` on (after the namespace guard
passed): the leader analyses collisions and blocks on a non-zero total,
then applies manifests (Waiting on a `ManifestClientError`), and both
leader and non-leader end with `_update_status`. -/
def afterGuard (env : ReconcileEnv) (nsCreatedFlag : Bool) : Outcome :=
  let base : Outcome :=
    { terminating := false
      status := none
      nsChecked := true
      nsCreated := nsCreatedFlag
      collisionsAnalyzed := env.isLeader
      applyAttempted := false
      purgeAttempted := false
      purgeIgnoresNotFound := false
      purgeIgnoresUnauthorized := false }
  if env.isLeader then
    if env.conflictCounts.sum != 0 then
      { base with status := some (.blocked (collisionMsg env.conflictCounts.sum)) }
    else
      match env.applyError with
      | some msg => { base with applyAttempted := true, status := some (.waiting msg) }
      | none => updateStatusPhase env { base with applyAttempted := true }
  else updateStatusPhase env base

/-- An outcome of a cycle the namespace guard halted. -/
def guardHalt (s : Status) : Outcome :=
  { terminating := false
    status := some s
    nsChecked := true
    nsCreated := false
    collisionsAnalyzed := false
    applyAttempted := false
    purgeAttempted := false
    purgeIgnoresNotFound := false
    purgeIgnoresUnauthorized := false }

/-- `_create_namespace`: a successful create (namespace actually created)
or a 409 (already exists, treated as success) lets the cycle proceed; any
other `ApiError` halts the cycle in Waiting. -/
def createStep (cfg : Config) (env : ReconcileEnv) : Outcome :=
  match env.nsCreateError with
  | none => afterGuard env true
  | some c =>
    if c = 409 then afterGuard env false
    else guardHalt (.waiting ("Waiting to create namespace: " ++ configuredNamespace cfg))

/-- The `except ApiError` branch of `_check_namespace`: 404 with
create-namespace set goes through `_create_namespace`; 404 without it
blocks naming the missing namespace; any other code waits for the
Kubernetes API. -/
def guardStep (cfg : Config) (env : ReconcileEnv) (code : Nat) : Outcome :=
  if code = 404 && cfg.createNamespace then createStep cfg env
  else if code = 404 then
    guardHalt (.blocked ("Missing namespace '" ++ configuredNamespace cfg ++ "'"))
  else guardHalt (.waiting "Waiting for Kubernetes API")

/-- `RawfileLocalPVOperatorCharm.reconcile` as a function of the observed
environment and the stored terminating flag: teardown check
(`_check_teardown` / `_purge_manifests`, where only the leader deletes,
with `ignore_unauthorized=True, ignore_not_found=True`), then
`_check_namespace`, `_prevent_collisions`, `_install_manifests` and
`_update_status` in order. -/
def reconcile (cfg : Config) (env : ReconcileEnv) (terminating : Bool) : Outcome :=
  if terminating || env.eventStopOrRemove then
    { terminating := true
      status := if env.isLeader then some (.maintenance "Removing Kubernetes Resources") else none
      nsChecked := false
      nsCreated := false
      collisionsAnalyzed := false
      applyAttempted := false
      purgeAttempted := env.isLeader
      purgeIgnoresNotFound := env.isLeader
      purgeIgnoresUnauthorized := env.isLeader }
  else
    match env.nsGetError with
    | none => afterGuard env false
    | some code => guardStep cfg env code

/-- `_stored.set_default(is_terminating=False)`: the flag a fresh charm
starts with. -/
def initialTerminating : Bool := false

/-- The terminating flag threaded through a sequence of reconcile
cycles. -/
def runCycles (cfg : Config) (t : Bool) : List ReconcileEnv → Bool
  | [] => t
  | env :: rest => runCycles cfg (reconcile cfg env t).terminating rest

/-- The identity of a Kubernetes resource: kind, namespace, name. -/
structure ResourceIdentity where
  kind : String
  namespaceOpt : Option String
  name : String
deriving DecidableEq, Repr

/-- A live cluster object as the collision analysis sees it: its identity
and its labels. -/
structure LiveResource where
  identity : ResourceIdentity
  labels : StrDict
deriving DecidableEq, Repr

/-- Modelled from the spec: whether a live object carries this manifest
set's ownership label ("owned = carries this instance's ownership label;
foreign = same identity, no such label"). -/
def ownedBySet (l : LiveResource) : Bool :=
  l.labels.any (fun kv => kv.1 = OWNERSHIP_LABEL_KEY && kv.2 = MANIFEST_SET_NAME)

/-- Modelled from the spec: `Collector.analyze_resources` lives in the
external `ops.manifests` library, not under src/.  The spec: "for the
current Manifest Set's desired objects, query the cluster for
same-identity objects and classify each as: absent (fine),
present-and-owned (fine), present-and-foreign (conflict); returns, per
manifest set, the list of foreign conflicting identities". -/
def analyzeConflicts (desired : List ResourceIdentity) (live : List LiveResource) : List ResourceIdentity :=
  desired.filter (fun d => live.any (fun l => l.identity = d && !(ownedBySet l)))

/-- A configuration with every option unset, shared by concrete test
inputs below. -/
def cfgNone : Config :=
  { namespaceOpt := none
    createNamespace := false
    nodeSelector := none
    nodeStoragePath := none
    rbacFormatter := none
    driverFormatter := none
    storageClassName := none
    reclaimPolicy := none }

-- Supporting lemmas (shared; none of them is a claim's theorem).

theorem splitEqOnce_eq_none {l : List Char} (h : '=' ∉ l) : splitEqOnce l = none := by
  induction l with
  | nil => rfl
  | cons c rest ih =>
    have hc : ¬(c = '=') := fun hcc => h (hcc ▸ List.mem_cons_self c rest)
    have hr : '=' ∉ rest := fun hm => h (List.mem_cons_of_mem c hm)
    simp [splitEqOnce, hc, ih hr]

theorem mem_of_mem_trimChars {x : Char} {l : List Char} (h : x ∈ trimChars l) : x ∈ l := by
  unfold trimChars at h
  rw [List.mem_reverse] at h
  have h2 := (List.dropWhile_suffix (l := (l.dropWhile Char.isWhitespace).reverse)
    Char.isWhitespace).sublist.subset h
  rw [List.mem_reverse] at h2
  exact (List.dropWhile_suffix (l := l) Char.isWhitespace).sublist.subset h2

theorem parseTokenChars_drop_no_eq (acc : StrDict) (item : List Char)
    (h : '=' ∉ item) : parseTokenChars acc item = acc := by
  have hne : '=' ∉ trimChars item := fun hm => h (mem_of_mem_trimChars hm)
  unfold parseTokenChars
  by_cases hc : trimChars item = []
  · simp [hc]
  · simp [hc, splitEqOnce_eq_none hne]

theorem parseTokenChars_drop_empty_key (acc : StrDict) (item k v : List Char)
    (hs : splitEqOnce (trimChars item) = some (k, v)) (hk : trimChars k = []) :
    parseTokenChars acc item = acc := by
  unfold parseTokenChars
  by_cases hc : trimChars item = []
  · simp [hc]
  · simp [hc, hs, hk]

-- The claims.

/-- C6: `_parse_node_selector` splits on spaces, drops tokens without `=`
and tokens whose stripped key is empty, splits each kept token at the
first `=` only, strips whitespace from keys and values; `"a=1 b=2"` and
`"a=1  b=2"` both parse to `{a: 1, b: 2}`; an unset or empty option parses
to `None`. -/
theorem nodeSelector_parsing_correct :
    (∀ cfg : Config, cfg.nodeSelector = some "a=1 b=2" →
      parseNodeSelector cfg = some [("a", "1"), ("b", "2")]) ∧
    (∀ cfg : Config, cfg.nodeSelector = some "a=1  b=2" →
      parseNodeSelector cfg = some [("a", "1"), ("b", "2")]) ∧
    (∀ cfg : Config, cfg.nodeSelector = none ∨ cfg.nodeSelector = some "" →
      parseNodeSelector cfg = none) ∧
    (∀ (acc : StrDict) (item : List Char), '=' ∉ item → parseTokenChars acc item = acc) ∧
    (∀ (acc : StrDict) (item k v : List Char), splitEqOnce (trimChars item) = some (k, v) →
      trimChars k = [] → parseTokenChars acc item = acc) ∧
    (∀ cfg : Config, cfg.nodeSelector = some "k=a=b" →
      parseNodeSelector cfg = some [("k", "a=b")]) ∧
    (∀ cfg : Config, cfg.nodeSelector = some "\ta\t=\t1\t" →
      parseNodeSelector cfg = some [("a", "1")]) := by
  refine ⟨?_, ?_, ?_, ?_, ?_, ?_, ?_⟩
  · intro cfg h; simp [parseNodeSelector, configGet, h]; rfl
  · intro cfg h; simp [parseNodeSelector, configGet, h]; rfl
  · intro cfg h
    rcases h with h | h <;> simp [parseNodeSelector, configGet, h]
  · exact parseTokenChars_drop_no_eq
  · exact parseTokenChars_drop_empty_key
  · intro cfg h; simp [parseNodeSelector, configGet, h]; rfl
  · intro cfg h; simp [parseNodeSelector, configGet, h]; rfl

/-- Witness for `nodeSelector_parsing_correct` at concrete inputs. -/
theorem nodeSelector_parsing_correct_witness :
    parseNodeSelector { cfgNone with nodeSelector := some "a=1  b=2" } =
      some [("a", "1"), ("b", "2")] :=
  nodeSelector_parsing_correct.2.1 _ rfl

/-- C7: the computed driver name is the formatter rendered with
`name = "rawfile.csi.openebs.io"` and `app =` the application name, used
verbatim (`"{app}-{name}"` with app `"foo"` gives
`"foo-rawfile.csi.openebs.io"`); with the formatter unset the upstream
identifier is returned unchanged; and the result is the same on every
invocation with the same configuration and application name. -/
theorem csi_driver_name_correct :
    DRIVER_NAME = "rawfile.csi.openebs.io" ∧
    (∀ (cfg : Config) (app : String), cfg.driverFormatter = none ∨ cfg.driverFormatter = some "" →
      csiDriverName cfg app = some DRIVER_NAME) ∧
    (∀ (cfg : Config) (app f : String), configGet cfg.driverFormatter = some f →
      csiDriverName cfg app = pyFormat f DRIVER_NAME app) ∧
    (∀ cfg : Config, cfg.driverFormatter = some "{app}-{name}" →
      csiDriverName cfg "foo" = some "foo-rawfile.csi.openebs.io") ∧
    (∀ (cfg : Config) (app : String) (d1 d2 : String),
      csiDriverName cfg app = some d1 → csiDriverName cfg app = some d2 → d1 = d2) := by
  refine ⟨rfl, ?_, ?_, ?_, ?_⟩
  · intro cfg app h
    rcases h with h | h <;> simp [csiDriverName, configGet, h]
  · intro cfg app f h; simp [csiDriverName, h]
  · intro cfg h
    simp [csiDriverName, configGet, h]
    rfl
  · intro cfg app d1 d2 h1 h2
    rw [h1] at h2
    exact Option.some_inj.mp h2

/-- Witness for `csi_driver_name_correct` at concrete inputs. -/
theorem csi_driver_name_correct_witness :
    csiDriverName { cfgNone with driverFormatter := some "{app}-{name}" } "foo" =
      some "foo-rawfile.csi.openebs.io" :=
  csi_driver_name_correct.2.2.2.1 _ rfl

/-- C10: on a DaemonSet named exactly `rawfile-csi-node` whose pod spec
has an absent or empty volume list, `DaemonSetAdjustments` returns the
object entirely unchanged — no node selector assignment or clearing, no
env var update — whatever node-selector string or storage path the
configuration holds. -/
theorem daemonset_no_volumes_unchanged (cfg : Config) (app : String) (m : ObjectMeta)
    (pspec : PodSpec) (hname : m.name = some "rawfile-csi-node")
    (hvols : pspec.volumes = none ∨ pspec.volumes = some []) :
    daemonSetAdjustments cfg app
      { metadata := some m, data := .daemonSet (some { template := some { spec := some pspec } }) } =
      { metadata := some m, data := .daemonSet (some { template := some { spec := some pspec } }) } := by
  rcases hvols with h | h <;>
    simp [daemonSetAdjustments, hname, strTruthy, h]

/-- Witness for `daemonset_no_volumes_unchanged`: a configured
node-selector and storage path still leave the volume-less DaemonSet
untouched. -/
theorem daemonset_no_volumes_unchanged_witness :
    daemonSetAdjustments
      { cfgNone with nodeSelector := some "a=1", nodeStoragePath := some "/data" } "foo"
      { metadata := some { name := some "rawfile-csi-node", namespaceOpt := none, labels := [] }
        data := .daemonSet (some { template := some { spec := some { containers := some [{ name := "node-driver-registrar", env := some [{ name := "DRIVER_REG_SOCK_PATH", value := none }] }], volumes := some [], nodeSelector := none } } }) } =
      { metadata := some { name := some "rawfile-csi-node", namespaceOpt := none, labels := [] }
        data := .daemonSet (some { template := some { spec := some { containers := some [{ name := "node-driver-registrar", env := some [{ name := "DRIVER_REG_SOCK_PATH", value := none }] }], volumes := some [], nodeSelector := none } } }) } :=
  daemonset_no_volumes_unchanged _ _ _ _ rfl (Or.inr rfl)

theorem updateStatusPhase_eq (env : ReconcileEnv) (o : Outcome) :
    updateStatusPhase env o =
      { o with status := some (if env.unready = [] then Status.active "Ready"
          else Status.waiting (String.intercalate ", " env.unready)) } := by
  unfold updateStatusPhase
  split <;> simp_all

theorem afterGuard_collisionsAnalyzed (env : ReconcileEnv) (b : Bool) :
    (afterGuard env b).collisionsAnalyzed = env.isLeader := by
  unfold afterGuard
  split <;> [skip; simp [updateStatusPhase_eq]]
  split <;> [rfl; skip]
  split <;> simp [updateStatusPhase_eq]

theorem afterGuard_terminating (env : ReconcileEnv) (b : Bool) :
    (afterGuard env b).terminating = false := by
  unfold afterGuard
  split <;> [skip; simp [updateStatusPhase_eq]]
  split <;> [rfl; skip]
  split <;> simp [updateStatusPhase_eq]

theorem afterGuard_conflicts (env : ReconcileEnv) (b : Bool) (hl : env.isLeader = true)
    (hc : env.conflictCounts.sum ≠ 0) :
    afterGuard env b =
      { terminating := false
        status := some (.blocked (collisionMsg env.conflictCounts.sum))
        nsChecked := true
        nsCreated := b
        collisionsAnalyzed := true
        applyAttempted := false
        purgeAttempted := false
        purgeIgnoresNotFound := false
        purgeIgnoresUnauthorized := false } := by
  simp [afterGuard, hl, hc]

theorem reconcile_no_teardown (cfg : Config) (env : ReconcileEnv) (t : Bool)
    (h : (t || env.eventStopOrRemove) = false) :
    reconcile cfg env t =
      match env.nsGetError with
      | none => afterGuard env false
      | some code => guardStep cfg env code := by
  unfold reconcile
  simp [h]

theorem reconcile_nsget_none (cfg : Config) (env : ReconcileEnv) (t : Bool)
    (h : (t || env.eventStopOrRemove) = false) (hg : env.nsGetError = none) :
    reconcile cfg env t = afterGuard env false := by
  rw [reconcile_no_teardown cfg env t h, hg]

theorem reconcile_nsget_some (cfg : Config) (env : ReconcileEnv) (t : Bool) (code : Nat)
    (h : (t || env.eventStopOrRemove) = false) (hg : env.nsGetError = some code) :
    reconcile cfg env t = guardStep cfg env code := by
  rw [reconcile_no_teardown cfg env t h, hg]

theorem reconcile_shape (cfg : Config) (env : ReconcileEnv) (t : Bool)
    (h : (t || env.eventStopOrRemove) = false) :
    (∃ b, reconcile cfg env t = afterGuard env b) ∨ (∃ s, reconcile cfg env t = guardHalt s) := by
  cases hg : env.nsGetError with
  | none => exact Or.inl ⟨false, reconcile_nsget_none cfg env t h hg⟩
  | some code =>
    rw [reconcile_nsget_some cfg env t code h hg]
    unfold guardStep
    by_cases hcond : (decide (code = 404) && cfg.createNamespace) = true
    · rw [if_pos hcond]
      cases hcr : env.nsCreateError with
      | none =>
        refine Or.inl ⟨true, ?_⟩
        simp [createStep, hcr]
      | some c =>
        by_cases hc : c = 409
        · refine Or.inl ⟨false, ?_⟩
          simp [createStep, hcr, hc]
        · refine Or.inr ⟨.waiting ("Waiting to create namespace: " ++ configuredNamespace cfg), ?_⟩
          simp [createStep, hcr, hc]
    · rw [if_neg hcond]
      by_cases h404 : code = 404
      · rw [if_pos h404]
        exact Or.inr ⟨_, rfl⟩
      · rw [if_neg h404]
        exact Or.inr ⟨_, rfl⟩

/-- C2: the namespace guard runs before collision analysis and apply and:
404 with create-namespace unset blocks naming the missing namespace and
halts without apply; 404 with create-namespace set creates the namespace,
treating a 409 from the create as success, and the cycle proceeds; any
other transport error while checking or creating halts in Waiting. -/
theorem namespace_guard_correct :
    (∀ (cfg : Config) (env : ReconcileEnv) (t : Bool),
      (t || env.eventStopOrRemove) = false → env.nsGetError = some 404 →
      cfg.createNamespace = false →
      reconcile cfg env t =
        guardHalt (.blocked ("Missing namespace '" ++ configuredNamespace cfg ++ "'"))) ∧
    (∀ (cfg : Config) (env : ReconcileEnv) (t : Bool),
      (t || env.eventStopOrRemove) = false → env.nsGetError = some 404 →
      cfg.createNamespace = true → env.nsCreateError = none →
      reconcile cfg env t = afterGuard env true) ∧
    (∀ (cfg : Config) (env : ReconcileEnv) (t : Bool),
      (t || env.eventStopOrRemove) = false → env.nsGetError = some 404 →
      cfg.createNamespace = true → env.nsCreateError = some 409 →
      reconcile cfg env t = afterGuard env false) ∧
    (∀ (cfg : Config) (env : ReconcileEnv) (t : Bool) (code : Nat),
      (t || env.eventStopOrRemove) = false → env.nsGetError = some code → code ≠ 404 →
      reconcile cfg env t = guardHalt (.waiting "Waiting for Kubernetes API")) ∧
    (∀ (cfg : Config) (env : ReconcileEnv) (t : Bool) (c : Nat),
      (t || env.eventStopOrRemove) = false → env.nsGetError = some 404 →
      cfg.createNamespace = true → env.nsCreateError = some c → c ≠ 409 →
      reconcile cfg env t =
        guardHalt (.waiting ("Waiting to create namespace: " ++ configuredNamespace cfg))) ∧
    (∀ s : Status, (guardHalt s).collisionsAnalyzed = false ∧
      (guardHalt s).applyAttempted = false ∧ (guardHalt s).nsChecked = true) ∧
    (∀ (env : ReconcileEnv) (b : Bool), env.isLeader = true → env.conflictCounts.sum = 0 →
      (afterGuard env b).applyAttempted = true) := by
  refine ⟨?_, ?_, ?_, ?_, ?_, ?_, ?_⟩
  · intro cfg env t h h404 hcr
    rw [reconcile_no_teardown cfg env t h, h404]
    simp [guardStep, hcr]
  · intro cfg env t h h404 hcr hcreate
    rw [reconcile_no_teardown cfg env t h, h404]
    simp [guardStep, createStep, hcr, hcreate]
  · intro cfg env t h h404 hcr hcreate
    rw [reconcile_no_teardown cfg env t h, h404]
    simp [guardStep, createStep, hcr, hcreate]
  · intro cfg env t code h hget hc
    rw [reconcile_no_teardown cfg env t h, hget]
    simp [guardStep, hc]
  · intro cfg env t c h h404 hcr hcreate hc
    rw [reconcile_no_teardown cfg env t h, h404]
    simp [guardStep, createStep, hcr, hcreate, hc]
  · intro s
    exact ⟨rfl, rfl, rfl⟩
  · intro env b hl hc
    simp [afterGuard, hl, hc, updateStatusPhase_eq]
    split <;> simp

/-- Witness for `namespace_guard_correct`: a missing namespace with
create-namespace disabled blocks naming the default namespace. -/
theorem namespace_guard_correct_witness :
    reconcile cfgNone
      { isLeader := true, eventStopOrRemove := false, nsGetError := some 404, nsCreateError := none, conflictCounts := [], applyError := none, unready := [] } false =
      guardHalt (.blocked ("Missing namespace '" ++ configuredNamespace cfgNone ++ "'")) :=
  namespace_guard_correct.1 cfgNone _ false rfl rfl rfl

/-- C3 counterexample: a non-leader unit whose stored terminating flag is
set short-circuits the cycle but attempts no manifest deletion
(`_purge_manifests` returns before deleting when the unit is not the
leader), so "deleting all managed resources" does not hold of every such
cycle. -/
theorem teardown_nonleader_no_deletion :
    (reconcile cfgNone { isLeader := false, eventStopOrRemove := false, nsGetError := none, nsCreateError := none, conflictCounts := [], applyError := none, unready := [] } true).purgeAttempted = false ∧
    (reconcile cfgNone { isLeader := false, eventStopOrRemove := false, nsGetError := none, nsCreateError := none, conflictCounts := [], applyError := none, unready := [] } true).terminating = true ∧
    (reconcile cfgNone { isLeader := false, eventStopOrRemove := false, nsGetError := none, nsCreateError := none, conflictCounts := [], applyError := none, unready := [] } true).nsChecked = false := by
  exact ⟨rfl, rfl, rfl⟩

/-- C3 (amended): the terminating flag starts false, becomes true exactly
when a stop/remove event is first observed, and is never cleared (sticky
across any sequence of later cycles); every cycle beginning with the flag
set or triggered by stop/remove short-circuits to teardown, performing no
namespace check, collision analysis or apply, and manifest deletion —
with not-found and unauthorized errors ignored — is attempted exactly
when the unit is the leader. -/
theorem terminating_flag_sticky_teardown :
    initialTerminating = false ∧
    (∀ (cfg : Config) (env : ReconcileEnv) (t : Bool),
      (reconcile cfg env t).terminating = (t || env.eventStopOrRemove)) ∧
    (∀ (cfg : Config) (env : ReconcileEnv), (reconcile cfg env true).terminating = true) ∧
    (∀ (cfg : Config) (envs : List ReconcileEnv), runCycles cfg true envs = true) ∧
    (∀ (cfg : Config) (env : ReconcileEnv) (t : Bool), (t || env.eventStopOrRemove) = true →
      (reconcile cfg env t).nsChecked = false ∧
      (reconcile cfg env t).collisionsAnalyzed = false ∧
      (reconcile cfg env t).applyAttempted = false ∧
      (reconcile cfg env t).purgeAttempted = env.isLeader ∧
      (reconcile cfg env t).purgeIgnoresNotFound = env.isLeader ∧
      (reconcile cfg env t).purgeIgnoresUnauthorized = env.isLeader) := by
  have hterm : ∀ (cfg : Config) (env : ReconcileEnv) (t : Bool),
      (reconcile cfg env t).terminating = (t || env.eventStopOrRemove) := by
    intro cfg env t
    cases h : (t || env.eventStopOrRemove) with
    | true => simp [reconcile, h]
    | false =>
      rcases reconcile_shape cfg env t h with ⟨b, hb⟩ | ⟨s, hs⟩
      · rw [hb]
        exact afterGuard_terminating env b
      · rw [hs]
        rfl
  refine ⟨rfl, hterm, ?_, ?_, ?_⟩
  · intro cfg env
    rw [hterm]
    rfl
  · intro cfg envs
    induction envs with
    | nil => rfl
    | cons env rest ih =>
      unfold runCycles
      rw [hterm]
      exact ih
  · intro cfg env t h
    unfold reconcile
    simp [h]

/-- Witness for `terminating_flag_sticky_teardown`: a leader cycle whose
terminating flag is already set attempts deletion, ignoring not-found and
unauthorized errors, and does no normal-path work. -/
theorem terminating_flag_sticky_teardown_witness :
    (reconcile cfgNone { isLeader := true, eventStopOrRemove := false, nsGetError := none, nsCreateError := none, conflictCounts := [], applyError := none, unready := [] } true).purgeAttempted = true ∧
    (reconcile cfgNone { isLeader := true, eventStopOrRemove := false, nsGetError := none, nsCreateError := none, conflictCounts := [], applyError := none, unready := [] } true).applyAttempted = false :=
  ⟨(terminating_flag_sticky_teardown.2.2.2.2 cfgNone _ true rfl).2.2.2.1,
   (terminating_flag_sticky_teardown.2.2.2.2 cfgNone _ true rfl).2.2.1⟩

/-- C1 counterexample: with the target namespace missing,
`create-namespace` set and one conflict reported, the cycle creates the
namespace before the collision analysis blocks it, so the cluster state
is not left unmodified for the cycle as claimed. -/
theorem collision_cycle_modifies_cluster :
    (reconcile { cfgNone with createNamespace := true } { isLeader := true, eventStopOrRemove := false, nsGetError := some 404, nsCreateError := none, conflictCounts := [1], applyError := none, unready := [] } false).nsCreated = true ∧
    (reconcile { cfgNone with createNamespace := true } { isLeader := true, eventStopOrRemove := false, nsGetError := some 404, nsCreateError := none, conflictCounts := [1], applyError := none, unready := [] } false).status =
      some (.blocked "1 Kubernetes resource collision (action: list-resources)") ∧
    (reconcile { cfgNone with createNamespace := true } { isLeader := true, eventStopOrRemove := false, nsGetError := some 404, nsCreateError := none, conflictCounts := [1], applyError := none, unready := [] } false).applyAttempted = false := by
  exact ⟨rfl, rfl, rfl⟩

/-- C1 (amended): whenever the collision analysis runs and reports a
non-zero total conflict count, the cycle halts before any manifest apply
or delete and the status is Blocked with the count followed by
" Kubernetes resource collision", pluralized with "s" exactly when the
count is not 1 (the only cluster modification possibly already performed
in such a cycle is the creation of the target namespace when
create-namespace is set); one foreign live DaemonSet named
`rawfile-csi-node` without the ownership label yields exactly 1 conflict
and the message "1 Kubernetes resource collision (action:
list-resources)". -/
theorem collision_blocks_cycle :
    (∀ (cfg : Config) (env : ReconcileEnv) (t : Bool),
      (reconcile cfg env t).collisionsAnalyzed = true → env.conflictCounts.sum ≠ 0 →
      (reconcile cfg env t).applyAttempted = false ∧
      (reconcile cfg env t).purgeAttempted = false ∧
      (reconcile cfg env t).status = some (.blocked (collisionMsg env.conflictCounts.sum))) ∧
    (∀ n : Nat, n ≠ 1 →
      collisionMsg n = toString n ++ " Kubernetes resource collision" ++ "s" ++ " (action: list-resources)") ∧
    collisionMsg 1 = "1" ++ " Kubernetes resource collision" ++ " (action: list-resources)" ∧
    analyzeConflicts
      [{ kind := "DaemonSet", namespaceOpt := some "foo", name := "rawfile-csi-node" },
       { kind := "StorageClass", namespaceOpt := none, name := "sc" },
       { kind := "ClusterRole", namespaceOpt := none, name := "reader" }]
      [{ identity := { kind := "DaemonSet", namespaceOpt := some "foo", name := "rawfile-csi-node" }, labels := [] }] =
      [{ kind := "DaemonSet", namespaceOpt := some "foo", name := "rawfile-csi-node" }] := by
  refine ⟨?_, ?_, rfl, ?_⟩
  · intro cfg env t h1 h2
    cases h : (t || env.eventStopOrRemove) with
    | true =>
      rw [reconcile] at h1
      simp [h] at h1
    | false =>
      rcases reconcile_shape cfg env t h with ⟨b, hb⟩ | ⟨s, hs⟩
      · rw [hb] at h1 ⊢
        rw [afterGuard_collisionsAnalyzed] at h1
        rw [afterGuard_conflicts env b h1 h2]
        exact ⟨rfl, rfl, rfl⟩
      · rw [hs] at h1
        exact absurd h1 (by simp [guardHalt])
  · intro n hn
    simp [collisionMsg, hn]
  · rfl

/-- Witness for `collision_blocks_cycle`: two conflicts block the cycle
with the pluralized message before any apply. -/
theorem collision_blocks_cycle_witness :
    (reconcile cfgNone { isLeader := true, eventStopOrRemove := false, nsGetError := none, nsCreateError := none, conflictCounts := [2], applyError := none, unready := [] } false).applyAttempted = false ∧
    (reconcile cfgNone { isLeader := true, eventStopOrRemove := false, nsGetError := none, nsCreateError := none, conflictCounts := [2], applyError := none, unready := [] } false).status =
      some (.blocked "2 Kubernetes resource collisions (action: list-resources)") := by
  have h := collision_blocks_cycle.1 cfgNone
    { isLeader := true, eventStopOrRemove := false, nsGetError := none, nsCreateError := none, conflictCounts := [2], applyError := none, unready := [] } false rfl (by decide)
  exact ⟨h.1, h.2.2⟩

/-- C5 (code bug): `ConfigureStorageClass` with `storage-class-name` and
`storage-class-reclaim-policy` unset logs "Skipping" but then assigns
anyway, clearing `metadata.name` and `reclaimPolicy` to `None` instead of
leaving them at their prior values; the computed `provisioner` is written
as claimed.  With both options set, all three fields are written as the
claim states. -/
theorem storage_class_unset_options_cleared :
    configureStorageClass cfgNone "foo"
      { metadata := some { name := some "original", namespaceOpt := none, labels := [] }
        data := .storageClass (some "prior-provisioner") (some "Retain") } =
      .ok { metadata := some { name := none, namespaceOpt := none, labels := [] }
            data := .storageClass (some DRIVER_NAME) none } ∧
    configureStorageClass
      { cfgNone with storageClassName := some "my-sc", reclaimPolicy := some "Delete" } "foo"
      { metadata := some { name := some "original", namespaceOpt := none, labels := [] }
        data := .storageClass (some "prior-provisioner") (some "Retain") } =
      .ok { metadata := some { name := some "my-sc", namespaceOpt := none, labels := [] }
            data := .storageClass (some DRIVER_NAME) (some "Delete") } := by
  exact ⟨rfl, rfl⟩

/-- C8: the RBAC patch renames ClusterRole/ClusterRoleBinding objects
through the `rbac-name-formatter` template (variables `name` and `app`),
falling back to the original name when the formatter is unset; for every
ClusterRoleBinding and RoleBinding it sets every ServiceAccount subject's
namespace to the configured namespace — whatever kind the roleRef targets
— and, exactly when the roleRef's kind is ClusterRole, renames
`roleRef.name` with the same function — so with formatter
`"{app}-{name}"` and app `"foo"`, a ClusterRole `"reader"` becomes
`"foo-reader"` and a binding's roleRef to `"reader"` becomes
`"foo-reader"` in the same pass. -/
theorem rbac_adjustments_correct :
    (∀ (cfg : Config) (app n : String), configGet cfg.rbacFormatter = none →
      rbacRename cfg app n = some n) ∧
    (∀ (cfg : Config) (app f n : String), configGet cfg.rbacFormatter = some f →
      rbacRename cfg app n = pyFormat f n app) ∧
    (∀ (cfg : Config) (app n n2 : String) (m : ObjectMeta), m.name = some n → n ≠ "" →
      rbacRename cfg app n = some n2 →
      rbacAdjustments cfg app { metadata := some m, data := .clusterRole } =
        .ok { metadata := some { m with name := some n2 }, data := .clusterRole }) ∧
    (∀ (cfg : Config) (app n n2 rr2 : String) (m : ObjectMeta) (subs : Option (List Subject)) (rr : RoleRef),
      m.name = some n → n ≠ "" → rbacRename cfg app n = some n2 →
      rr.kind = "ClusterRole" → rbacRename cfg app rr.name = some rr2 →
      rbacAdjustments cfg app { metadata := some m, data := .clusterRoleBinding subs rr } =
        .ok { metadata := some { m with name := some n2 },
              data := .clusterRoleBinding (subs.map (List.map (patchSubject (configGet cfg.namespaceOpt)))) { rr with name := rr2 } }) ∧
    (∀ (ns : Option String) (s : Subject), s.kind = "ServiceAccount" →
      patchSubject ns s = { s with namespaceOpt := ns }) ∧
    (∀ (cfg : Config) (app n rr2 : String) (m : ObjectMeta) (subs : Option (List Subject)) (rr : RoleRef),
      m.name = some n → n ≠ "" → rr.kind = "ClusterRole" → rbacRename cfg app rr.name = some rr2 →
      rbacAdjustments cfg app { metadata := some m, data := .roleBinding subs rr } =
        .ok { metadata := some m,
              data := .roleBinding (subs.map (List.map (patchSubject (configGet cfg.namespaceOpt)))) { rr with name := rr2 } }) ∧
    (∀ (cfg : Config) (app n n2 : String) (m : ObjectMeta) (subs : Option (List Subject)) (rr : RoleRef),
      m.name = some n → n ≠ "" → rbacRename cfg app n = some n2 →
      rr.kind ≠ "ClusterRole" →
      rbacAdjustments cfg app { metadata := some m, data := .clusterRoleBinding subs rr } =
        .ok { metadata := some { m with name := some n2 },
              data := .clusterRoleBinding (subs.map (List.map (patchSubject (configGet cfg.namespaceOpt)))) rr }) ∧
    (∀ (cfg : Config) (app n : String) (m : ObjectMeta) (subs : Option (List Subject)) (rr : RoleRef),
      m.name = some n → n ≠ "" → rr.kind ≠ "ClusterRole" →
      rbacAdjustments cfg app { metadata := some m, data := .roleBinding subs rr } =
        .ok { metadata := some m,
              data := .roleBinding (subs.map (List.map (patchSubject (configGet cfg.namespaceOpt)))) rr }) ∧
    (rbacAdjustments { cfgNone with rbacFormatter := some "{app}-{name}", namespaceOpt := some "ns1" } "foo"
      { metadata := some { name := some "reader", namespaceOpt := none, labels := [] }, data := .clusterRole } =
      .ok { metadata := some { name := some "foo-reader", namespaceOpt := none, labels := [] }, data := .clusterRole }) ∧
    (rbacAdjustments { cfgNone with rbacFormatter := some "{app}-{name}", namespaceOpt := some "ns1" } "foo"
      { metadata := some { name := some "binding", namespaceOpt := none, labels := [] }
        data := .clusterRoleBinding (some [{ kind := "ServiceAccount", name := "sa", namespaceOpt := none }]) { kind := "ClusterRole", name := "reader" } } =
      .ok { metadata := some { name := some "foo-binding", namespaceOpt := none, labels := [] }
            data := .clusterRoleBinding (some [{ kind := "ServiceAccount", name := "sa", namespaceOpt := some "ns1" }]) { kind := "ClusterRole", name := "foo-reader" } }) ∧
    (rbacAdjustments { cfgNone with rbacFormatter := some "{app}-{name}", namespaceOpt := some "ns1" } "foo"
      { metadata := some { name := some "rb", namespaceOpt := none, labels := [] }
        data := .roleBinding (some [{ kind := "ServiceAccount", name := "sa", namespaceOpt := none }]) { kind := "Role", name := "local" } } =
      .ok { metadata := some { name := some "rb", namespaceOpt := none, labels := [] }
            data := .roleBinding (some [{ kind := "ServiceAccount", name := "sa", namespaceOpt := some "ns1" }]) { kind := "Role", name := "local" } }) := by
  refine ⟨?_, ?_, ?_, ?_, ?_, ?_, ?_, ?_, rfl, rfl, rfl⟩
  · intro cfg app n h
    simp [rbacRename, h]
  · intro cfg app f n h
    simp [rbacRename, h]
  · intro cfg app n n2 m hm hn hr
    simp [rbacAdjustments, hm, hn, hr]
  · intro cfg app n n2 rr2 m subs rr hm hn hr hk hrr
    simp [rbacAdjustments, hm, hn, hr, hk, hrr]
  · intro ns s h
    simp [patchSubject, h]
  · intro cfg app n rr2 m subs rr hm hn hk hrr
    simp [rbacAdjustments, hm, hn, hk, hrr]
  · intro cfg app n n2 m subs rr hm hn hr hk
    simp [rbacAdjustments, hm, hn, hr, hk]
  · intro cfg app n m subs rr hm hn hk
    simp [rbacAdjustments, hm, hn, hk]

/-- Witness for `rbac_adjustments_correct`: the ClusterRole rename clause
applied at a concrete formatter and role. -/
theorem rbac_adjustments_correct_witness :
    rbacAdjustments { cfgNone with rbacFormatter := some "{app}-{name}" } "foo"
      { metadata := some { name := some "viewer", namespaceOpt := none, labels := [] }, data := .clusterRole } =
      .ok { metadata := some { name := some "foo-viewer", namespaceOpt := none, labels := [] }, data := .clusterRole } :=
  rbac_adjustments_correct.2.2.1 _ "foo" "viewer" "foo-viewer" _ rfl (by decide) rfl

/-- C9 counterexample: `UpdateCSIDriverName` does raise on structurally
incomplete objects: `obj.spec.template.spec` raises `AttributeError` when
the pod template is absent (the guard only checks `obj.spec` and
`obj.spec.template.spec`), and iterating `containers` raises `TypeError`
when the container list is absent. -/
theorem update_csi_driver_raises :
    updateCSIDriverName cfgNone "foo"
      { metadata := some { name := some "x", namespaceOpt := none, labels := [] }
        data := .daemonSet (some { template := none }) } =
      .error "AttributeError: spec.template is None" ∧
    updateCSIDriverName cfgNone "foo"
      { metadata := some { name := some "x", namespaceOpt := none, labels := [] }
        data := .daemonSet (some { template := some { spec := some { containers := none, volumes := none, nodeSelector := none } } }) } =
      .error "TypeError: containers is None" :=
  ⟨rfl, rfl⟩

/-- C9 (amended): on a DaemonSet or StatefulSet, `UpdateCSIDriverName`
logs and returns the object unchanged when the object's spec or the pod
template's spec is absent, but an absent pod template or an absent
containers list raises (aborting the pipeline); when the structure is
complete it sets the value of every `PROVISIONER_NAME` env var of every
container named `csi-driver` to the computed driver name. -/
theorem update_csi_driver_guards :
    (∀ (cfg : Config) (app : String) (m : ObjectMeta), strTruthy m.name = true →
      updateCSIDriverName cfg app { metadata := some m, data := .daemonSet none } =
        .ok { metadata := some m, data := .daemonSet none }) ∧
    (∀ (cfg : Config) (app : String) (m : ObjectMeta), strTruthy m.name = true →
      updateCSIDriverName cfg app { metadata := some m, data := .daemonSet (some { template := some { spec := none } }) } =
        .ok { metadata := some m, data := .daemonSet (some { template := some { spec := none } }) }) ∧
    (∀ (cfg : Config) (app : String) (m : ObjectMeta), strTruthy m.name = true →
      updateCSIDriverName cfg app { metadata := some m, data := .daemonSet (some { template := none }) } =
        .error "AttributeError: spec.template is None") ∧
    (∀ (cfg : Config) (app : String) (m : ObjectMeta) (pspec : PodSpec),
      strTruthy m.name = true → pspec.containers = none →
      updateCSIDriverName cfg app { metadata := some m, data := .statefulSet (some { template := some { spec := some pspec } }) } =
        .error "TypeError: containers is None") ∧
    (∀ (cfg : Config) (app : String) (m : ObjectMeta) (pspec : PodSpec) (cs : List Container) (d : String),
      strTruthy m.name = true → pspec.containers = some cs →
      needsDriverName cs = true → csiDriverName cfg app = some d →
      updateCSIDriverName cfg app { metadata := some m, data := .daemonSet (some { template := some { spec := some pspec } }) } =
        .ok { metadata := some m, data := .daemonSet (some { template := some { spec := some { pspec with containers := some (cs.map (patchCsiContainer d)) } } }) }) ∧
    (∀ (d : String) (c : Container) (evs : List EnvVar), c.name = "csi-driver" → c.env = some evs →
      patchCsiContainer d c = { c with env := some (evs.map (setProvisionerEnv d)) }) ∧
    (∀ (d : String) (e : EnvVar), e.name = "PROVISIONER_NAME" →
      setProvisionerEnv d e = { e with value := some d }) := by
  refine ⟨?_, ?_, ?_, ?_, ?_, ?_, ?_⟩
  · intro cfg app m hm
    simp [updateCSIDriverName, hm, updateWorkload, Except.map]
  · intro cfg app m hm
    simp [updateCSIDriverName, hm, updateWorkload, Except.map]
  · intro cfg app m hm
    simp [updateCSIDriverName, hm, updateWorkload, Except.map]
  · intro cfg app m pspec hm hc
    simp [updateCSIDriverName, hm, updateWorkload, hc, Except.map]
  · intro cfg app m pspec cs d hm hc hneed hd
    simp [updateCSIDriverName, hm, updateWorkload, hc, updateContainers, hneed, hd, Except.map]
  · intro d c evs hn he
    simp [patchCsiContainer, hn, he]
  · intro d e h
    simp [setProvisionerEnv, h]

/-- Witness for `update_csi_driver_guards`: the complete-structure clause
applied at a concrete DaemonSet. -/
theorem update_csi_driver_guards_witness :
    updateCSIDriverName cfgNone "foo"
      { metadata := some { name := some "n", namespaceOpt := none, labels := [] }
        data := .daemonSet (some { template := some { spec := some { containers := some [{ name := "csi-driver", env := some [{ name := "PROVISIONER_NAME", value := none }] }], volumes := none, nodeSelector := none } } }) } =
      .ok { metadata := some { name := some "n", namespaceOpt := none, labels := [] }
            data := .daemonSet (some { template := some { spec := some { containers := some ([{ name := "csi-driver", env := some [{ name := "PROVISIONER_NAME", value := none }] }].map (patchCsiContainer DRIVER_NAME)), volumes := none, nodeSelector := none } } }) } :=
  update_csi_driver_guards.2.2.2.2.1 cfgNone "foo" _ _ _ DRIVER_NAME rfl rfl (by decide) rfl

-- Idempotence infrastructure for the patch pipeline (C4).

theorem configGet_ne_empty {x : Option String} {s : String} (h : configGet x = some s) : s ≠ "" := by
  cases x with
  | none => simp [configGet] at h
  | some v =>
    by_cases hv : v = "" <;> simp [configGet, hv] at h
    subst h; exact hv

theorem dictInsert_idem (k v : String) (l : StrDict) :
    dictInsert k v (dictInsert k v l) = dictInsert k v l := by
  induction l with
  | nil => simp [dictInsert]
  | cons kv rest ih =>
    by_cases h : kv.1 = k
    · simp [dictInsert, h]
    · simp [dictInsert, h, ih]

theorem setProvisionerEnv_name (d : String) (e : EnvVar) : (setProvisionerEnv d e).name = e.name := by
  unfold setProvisionerEnv
  split <;> rfl

theorem setProvisionerEnv_idem (d : String) (e : EnvVar) :
    setProvisionerEnv d (setProvisionerEnv d e) = setProvisionerEnv d e := by
  unfold setProvisionerEnv
  split <;> simp_all [setProvisionerEnv]

theorem setFirstRegSock_idem (app : String) (evs : List EnvVar) :
    setFirstRegSock app (setFirstRegSock app evs) = setFirstRegSock app evs := by
  induction evs with
  | nil => rfl
  | cons e rest ih =>
    by_cases h : e.name = "DRIVER_REG_SOCK_PATH"
    · simp [setFirstRegSock, h]
    · simp [setFirstRegSock, h, ih]

theorem setFirstRegSock_names (app : String) (evs : List EnvVar) (p : String → Bool) :
    (setFirstRegSock app evs).any (fun e => p e.name) = evs.any (fun e => p e.name) := by
  induction evs with
  | nil => rfl
  | cons e rest ih =>
    by_cases h : e.name = "DRIVER_REG_SOCK_PATH"
    · simp [setFirstRegSock, h]
    · simp [setFirstRegSock, h, ih]

theorem patchCsiContainer_name (d : String) (c : Container) :
    (patchCsiContainer d c).name = c.name := by
  unfold patchCsiContainer
  split
  · split <;> rfl
  · rfl

theorem patchCsiContainer_of_ne (d : String) (c : Container) (h : ¬(c.name = "csi-driver")) :
    patchCsiContainer d c = c := by
  simp [patchCsiContainer, h]

theorem patchCsiContainer_idem (d : String) (c : Container) :
    patchCsiContainer d (patchCsiContainer d c) = patchCsiContainer d c := by
  by_cases h : c.name = "csi-driver"
  · cases he : c.env with
    | none => simp [patchCsiContainer, h, he]
    | some evs =>
      simp [patchCsiContainer, h, he, Function.comp, setProvisionerEnv_idem]
  · simp [patchCsiContainer, h]

theorem patchRegistrarContainer_name (app : String) (c : Container) :
    (patchRegistrarContainer app c).name = c.name := by
  unfold patchRegistrarContainer
  split <;> rfl

theorem patchRegistrarContainer_idem (app : String) (c : Container) :
    patchRegistrarContainer app (patchRegistrarContainer app c) = patchRegistrarContainer app c := by
  cases he : c.env with
  | none => simp [patchRegistrarContainer, he]
  | some evs =>
    cases evs with
    | nil => simp [patchRegistrarContainer, he]
    | cons e rest =>
      by_cases h : e.name = "DRIVER_REG_SOCK_PATH" <;>
        simp [patchRegistrarContainer, he, setFirstRegSock, h, setFirstRegSock_idem]

theorem map_setProv_setFirstRegSock (d app : String) (evs : List EnvVar) :
    List.map (setProvisionerEnv d) (setFirstRegSock app evs) =
      setFirstRegSock app (List.map (setProvisionerEnv d) evs) := by
  induction evs with
  | nil => rfl
  | cons e rest ih =>
    by_cases h : e.name = "DRIVER_REG_SOCK_PATH"
    · have hp : ¬(e.name = "PROVISIONER_NAME") := by simp [h]
      simp [setFirstRegSock, h, setProvisionerEnv, hp]
    · simp [setFirstRegSock, h, setProvisionerEnv_name, ih]

theorem patchCsi_patchRegistrar_comm (d app : String) (c : Container) :
    patchCsiContainer d (patchRegistrarContainer app c) =
      patchRegistrarContainer app (patchCsiContainer d c) := by
  by_cases h : c.name = "csi-driver"
  · cases he : c.env with
    | none => simp [patchCsiContainer, patchRegistrarContainer, h, he]
    | some evs =>
      cases evs with
      | nil => simp [patchCsiContainer, patchRegistrarContainer, h, he]
      | cons e rest =>
        by_cases h0 : e.name = "DRIVER_REG_SOCK_PATH"
        · have hp : ¬(e.name = "PROVISIONER_NAME") := by simp [h0]
          simp [patchCsiContainer, patchRegistrarContainer, h, he, setFirstRegSock, h0,
                setProvisionerEnv, hp, map_setProv_setFirstRegSock]
        · have hname := setProvisionerEnv_name d e
          simp [patchCsiContainer, patchRegistrarContainer, h, he, setFirstRegSock, h0, hname,
                map_setProv_setFirstRegSock]
  · cases he : c.env with
    | none => simp [patchCsiContainer, patchRegistrarContainer, h, he]
    | some evs =>
      cases evs with
      | nil => simp [patchCsiContainer, patchRegistrarContainer, h, he]
      | cons e rest => simp [patchCsiContainer, patchRegistrarContainer, h, he]


theorem patchRegistrarList_map_csi (d app : String) (cs : List Container) :
    patchRegistrarList app (List.map (patchCsiContainer d) cs) =
      List.map (patchCsiContainer d) (patchRegistrarList app cs) := by
  induction cs with
  | nil => rfl
  | cons c rest ih =>
    by_cases h : c.name = "node-driver-registrar"
    · have h1 : patchCsiContainer d c = c := patchCsiContainer_of_ne _ _ (by simp [h])
      have h2 : patchCsiContainer d (patchRegistrarContainer app c) = patchRegistrarContainer app c :=
        patchCsiContainer_of_ne _ _ (by simp [patchRegistrarContainer_name, h])
      simp [patchRegistrarList, patchCsiContainer_name, h, h1, h2]
    · simp [patchRegistrarList, patchCsiContainer_name, h, ih]

theorem patchRegistrarList_idem (app : String) (cs : List Container) :
    patchRegistrarList app (patchRegistrarList app cs) = patchRegistrarList app cs := by
  induction cs with
  | nil => rfl
  | cons c rest ih =>
    by_cases h : c.name = "node-driver-registrar"
    · simp [patchRegistrarList, patchRegistrarContainer_name, h, patchRegistrarContainer_idem]
    · simp [patchRegistrarList, h, ih]

theorem any_prov_map_setProv (d : String) (evs : List EnvVar) :
    (List.map (setProvisionerEnv d) evs).any (fun e => e.name = "PROVISIONER_NAME") =
      evs.any (fun e => e.name = "PROVISIONER_NAME") := by
  induction evs with
  | nil => rfl
  | cons e rest ih => simp [setProvisionerEnv_name, ih]

theorem needsDriverName_map_csi (d : String) (cs : List Container) :
    needsDriverName (List.map (patchCsiContainer d) cs) = needsDriverName cs := by
  induction cs with
  | nil => rfl
  | cons c rest ih =>
    by_cases h : c.name = "csi-driver"
    · cases he : c.env with
      | none => simp [needsDriverName, patchCsiContainer, h, he] at ih ⊢; simp [ih]
      | some evs =>
        have hfun : ((fun e : EnvVar => decide (e.name = "PROVISIONER_NAME")) ∘ setProvisionerEnv d) =
            (fun e : EnvVar => decide (e.name = "PROVISIONER_NAME")) := by
          funext e
          simp [setProvisionerEnv_name]
        simp [needsDriverName, patchCsiContainer, h, he] at ih ⊢
        simp [ih, hfun]
    · simp [needsDriverName, patchCsiContainer_name, patchCsiContainer_of_ne d c h, h] at ih ⊢
      simp [ih]

theorem needsDriverName_patchRegistrarList (app : String) (cs : List Container) :
    needsDriverName (patchRegistrarList app cs) = needsDriverName cs := by
  induction cs with
  | nil => rfl
  | cons c rest ih =>
    by_cases h : c.name = "node-driver-registrar"
    · have hcsi : ¬(c.name = "csi-driver") := by simp [h]
      simp [needsDriverName, patchRegistrarList, h, patchRegistrarContainer_name, hcsi]
    · simp [needsDriverName, patchRegistrarList, h] at ih ⊢
      simp [ih]

theorem patchVolume_idem (cfg : Config) (app : String) (v : Volume) :
    patchVolume cfg app (patchVolume cfg app v) = patchVolume cfg app v := by
  by_cases hs : v.name = "socket-dir" <;> by_cases hd : v.name = "data-dir"
  · rw [hs] at hd
    simp at hd
  · cases hp : v.hostPath with
    | none => simp [patchVolume, hs, hd, hp]
    | some hpv => simp [patchVolume, hs, hd, hp]
  · cases hp : v.hostPath with
    | none => simp [patchVolume, hs, hd, hp]
    | some hpv =>
      cases hsp : configGet cfg.nodeStoragePath with
      | none => simp [patchVolume, hs, hd, hp, hsp]
      | some sp => simp [patchVolume, hs, hd, hp, hsp]
  · simp [patchVolume, hs, hd]


theorem pipeline_fix_otherKind (cfg : Config) (app : String) (k : String) (b : Bool)
    (mo : Option ObjectMeta) (y : Resource)
    (h : applyManipulations cfg app { metadata := mo, data := .otherKind k b } = .ok y) :
    applyManipulations cfg app y = .ok y := by
  cases mo with
  | none =>
    simp [applyManipulations, adjustNamespace, Resource.namespaced, configureStorageClass,
          csiDriverAdjustments, Resource.kindTag, daemonSetAdjustments, manifestLabel,
          rbacAdjustments, updateCSIDriverName, Bind.bind, Except.bind, strTruthy] at h
    subst h
    simp [applyManipulations, adjustNamespace, Resource.namespaced, configureStorageClass,
          csiDriverAdjustments, Resource.kindTag, daemonSetAdjustments, manifestLabel,
          rbacAdjustments, updateCSIDriverName, Bind.bind, Except.bind, strTruthy]
  | some m =>
    by_cases hk : k = "CSIDriver"
    · cases hn : m.name with
      | none =>
        cases b <;>
          · simp [applyManipulations, adjustNamespace, Resource.namespaced, configureStorageClass,
                csiDriverAdjustments, Resource.kindTag, daemonSetAdjustments, manifestLabel,
                rbacAdjustments, updateCSIDriverName, Bind.bind, Except.bind, strTruthy, hn, hk] at h
            subst h
            simp [applyManipulations, adjustNamespace, Resource.namespaced, configureStorageClass,
                csiDriverAdjustments, Resource.kindTag, daemonSetAdjustments, manifestLabel,
                rbacAdjustments, updateCSIDriverName, Bind.bind, Except.bind, strTruthy, hk, dictInsert_idem]
      | some n =>
        by_cases hne : n = ""
        · subst hne
          cases b <;>
            · simp [applyManipulations, adjustNamespace, Resource.namespaced, configureStorageClass,
                csiDriverAdjustments, Resource.kindTag, daemonSetAdjustments, manifestLabel,
                rbacAdjustments, updateCSIDriverName, Bind.bind, Except.bind, strTruthy, hn, hk] at h
              subst h
              simp [applyManipulations, adjustNamespace, Resource.namespaced, configureStorageClass,
                csiDriverAdjustments, Resource.kindTag, daemonSetAdjustments, manifestLabel,
                rbacAdjustments, updateCSIDriverName, Bind.bind, Except.bind, strTruthy, hk, dictInsert_idem]
        · cases hd : csiDriverName cfg app with
          | none =>
            cases b <;> simp [applyManipulations, adjustNamespace, Resource.namespaced, configureStorageClass,
                csiDriverAdjustments, Resource.kindTag, daemonSetAdjustments, manifestLabel,
                rbacAdjustments, updateCSIDriverName, Bind.bind, Except.bind, strTruthy, hn, hne, hk, hd] at h
          | some d =>
            by_cases hd0 : d = ""
            · subst hd0
              cases b <;>
                · simp [applyManipulations, adjustNamespace, Resource.namespaced, configureStorageClass,
                csiDriverAdjustments, Resource.kindTag, daemonSetAdjustments, manifestLabel,
                rbacAdjustments, updateCSIDriverName, Bind.bind, Except.bind, strTruthy, hn, hne, hk, hd] at h
                  subst h
                  simp [applyManipulations, adjustNamespace, Resource.namespaced, configureStorageClass,
                csiDriverAdjustments, Resource.kindTag, daemonSetAdjustments, manifestLabel,
                rbacAdjustments, updateCSIDriverName, Bind.bind, Except.bind, strTruthy, hk, hd, dictInsert_idem]
            · cases b <;>
                · simp [applyManipulations, adjustNamespace, Resource.namespaced, configureStorageClass,
                csiDriverAdjustments, Resource.kindTag, daemonSetAdjustments, manifestLabel,
                rbacAdjustments, updateCSIDriverName, Bind.bind, Except.bind, strTruthy, hn, hne, hk, hd] at h
                  subst h
                  simp [applyManipulations, adjustNamespace, Resource.namespaced, configureStorageClass,
                csiDriverAdjustments, Resource.kindTag, daemonSetAdjustments, manifestLabel,
                rbacAdjustments, updateCSIDriverName, Bind.bind, Except.bind, strTruthy, hk, hd, hd0, dictInsert_idem]
    · cases hn : m.name with
      | none =>
        cases b <;>
          · simp [applyManipulations, adjustNamespace, Resource.namespaced, configureStorageClass,
                csiDriverAdjustments, Resource.kindTag, daemonSetAdjustments, manifestLabel,
                rbacAdjustments, updateCSIDriverName, Bind.bind, Except.bind, strTruthy, hn, hk] at h
            subst h
            simp [applyManipulations, adjustNamespace, Resource.namespaced, configureStorageClass,
                csiDriverAdjustments, Resource.kindTag, daemonSetAdjustments, manifestLabel,
                rbacAdjustments, updateCSIDriverName, Bind.bind, Except.bind, strTruthy, hk, dictInsert_idem]
      | some n =>
        by_cases hne : n = ""
        · subst hne
          cases b <;>
            · simp [applyManipulations, adjustNamespace, Resource.namespaced, configureStorageClass,
                csiDriverAdjustments, Resource.kindTag, daemonSetAdjustments, manifestLabel,
                rbacAdjustments, updateCSIDriverName, Bind.bind, Except.bind, strTruthy, hn, hk] at h
              subst h
              simp [applyManipulations, adjustNamespace, Resource.namespaced, configureStorageClass,
                csiDriverAdjustments, Resource.kindTag, daemonSetAdjustments, manifestLabel,
                rbacAdjustments, updateCSIDriverName, Bind.bind, Except.bind, strTruthy, hk, dictInsert_idem]
        · cases b <;>
            · simp [applyManipulations, adjustNamespace, Resource.namespaced, configureStorageClass,
                csiDriverAdjustments, Resource.kindTag, daemonSetAdjustments, manifestLabel,
                rbacAdjustments, updateCSIDriverName, Bind.bind, Except.bind, strTruthy, hn, hne, hk] at h
              subst h
              simp [applyManipulations, adjustNamespace, Resource.namespaced, configureStorageClass,
                csiDriverAdjustments, Resource.kindTag, daemonSetAdjustments, manifestLabel,
                rbacAdjustments, updateCSIDriverName, Bind.bind, Except.bind, strTruthy, hn, hne, hk, dictInsert_idem]


theorem patchVolume_comp (cfg : Config) (app : String) :
    patchVolume cfg app ∘ patchVolume cfg app = patchVolume cfg app :=
  funext (patchVolume_idem cfg app)

theorem patchCsiContainer_comp (d : String) :
    patchCsiContainer d ∘ patchCsiContainer d = patchCsiContainer d :=
  funext (patchCsiContainer_idem d)

theorem patchSubject_idem (ns : Option String) (s : Subject) :
    patchSubject ns (patchSubject ns s) = patchSubject ns s := by
  by_cases h : s.kind = "ServiceAccount" <;> simp [patchSubject, h]

theorem patchSubject_comp (ns : Option String) :
    patchSubject ns ∘ patchSubject ns = patchSubject ns :=
  funext (patchSubject_idem ns)

theorem pipeline_fix_csiDriver (cfg : Config) (app : String) (mo : Option ObjectMeta) (y : Resource)
    (h : applyManipulations cfg app { metadata := mo, data := .csiDriver } = .ok y) :
    applyManipulations cfg app y = .ok y := by
  cases mo with
  | none =>
    simp [applyManipulations, adjustNamespace, Resource.namespaced, configureStorageClass,
            csiDriverAdjustments, Resource.kindTag, daemonSetAdjustments, manifestLabel,
            rbacAdjustments, updateCSIDriverName, updateWorkload, updateContainers,
            Bind.bind, Except.bind, Except.map, strTruthy] at h
    subst h
    simp [applyManipulations, adjustNamespace, Resource.namespaced, configureStorageClass,
            csiDriverAdjustments, Resource.kindTag, daemonSetAdjustments, manifestLabel,
            rbacAdjustments, updateCSIDriverName, updateWorkload, updateContainers,
            Bind.bind, Except.bind, Except.map, strTruthy]
  | some m =>
    cases hn : m.name with
    | none =>
      simp [applyManipulations, adjustNamespace, Resource.namespaced, configureStorageClass,
            csiDriverAdjustments, Resource.kindTag, daemonSetAdjustments, manifestLabel,
            rbacAdjustments, updateCSIDriverName, updateWorkload, updateContainers,
            Bind.bind, Except.bind, Except.map, strTruthy, hn] at h
      subst h
      simp [applyManipulations, adjustNamespace, Resource.namespaced, configureStorageClass,
            csiDriverAdjustments, Resource.kindTag, daemonSetAdjustments, manifestLabel,
            rbacAdjustments, updateCSIDriverName, updateWorkload, updateContainers,
            Bind.bind, Except.bind, Except.map, strTruthy, dictInsert_idem]
    | some n =>
      by_cases hne : n = ""
      · subst hne
        simp [applyManipulations, adjustNamespace, Resource.namespaced, configureStorageClass,
            csiDriverAdjustments, Resource.kindTag, daemonSetAdjustments, manifestLabel,
            rbacAdjustments, updateCSIDriverName, updateWorkload, updateContainers,
            Bind.bind, Except.bind, Except.map, strTruthy, hn] at h
        subst h
        simp [applyManipulations, adjustNamespace, Resource.namespaced, configureStorageClass,
            csiDriverAdjustments, Resource.kindTag, daemonSetAdjustments, manifestLabel,
            rbacAdjustments, updateCSIDriverName, updateWorkload, updateContainers,
            Bind.bind, Except.bind, Except.map, strTruthy, dictInsert_idem]
      · cases hd : csiDriverName cfg app with
        | none => simp [applyManipulations, adjustNamespace, Resource.namespaced, configureStorageClass,
            csiDriverAdjustments, Resource.kindTag, daemonSetAdjustments, manifestLabel,
            rbacAdjustments, updateCSIDriverName, updateWorkload, updateContainers,
            Bind.bind, Except.bind, Except.map, strTruthy, hn, hne, hd] at h
        | some d =>
          by_cases hd0 : d = ""
          · subst hd0
            simp [applyManipulations, adjustNamespace, Resource.namespaced, configureStorageClass,
            csiDriverAdjustments, Resource.kindTag, daemonSetAdjustments, manifestLabel,
            rbacAdjustments, updateCSIDriverName, updateWorkload, updateContainers,
            Bind.bind, Except.bind, Except.map, strTruthy, hn, hne, hd] at h
            subst h
            simp [applyManipulations, adjustNamespace, Resource.namespaced, configureStorageClass,
            csiDriverAdjustments, Resource.kindTag, daemonSetAdjustments, manifestLabel,
            rbacAdjustments, updateCSIDriverName, updateWorkload, updateContainers,
            Bind.bind, Except.bind, Except.map, strTruthy, hd, dictInsert_idem]
          · simp [applyManipulations, adjustNamespace, Resource.namespaced, configureStorageClass,
            csiDriverAdjustments, Resource.kindTag, daemonSetAdjustments, manifestLabel,
            rbacAdjustments, updateCSIDriverName, updateWorkload, updateContainers,
            Bind.bind, Except.bind, Except.map, strTruthy, hn, hne, hd] at h
            subst h
            simp [applyManipulations, adjustNamespace, Resource.namespaced, configureStorageClass,
            csiDriverAdjustments, Resource.kindTag, daemonSetAdjustments, manifestLabel,
            rbacAdjustments, updateCSIDriverName, updateWorkload, updateContainers,
            Bind.bind, Except.bind, Except.map, strTruthy, hd, hd0, dictInsert_idem]

theorem pipeline_fix_storageClass (cfg : Config) (app : String) (prov rp : Option String)
    (mo : Option ObjectMeta) (y : Resource)
    (h : applyManipulations cfg app { metadata := mo, data := .storageClass prov rp } = .ok y) :
    applyManipulations cfg app y = .ok y := by
  cases mo with
  | none =>
    simp [applyManipulations, adjustNamespace, Resource.namespaced, configureStorageClass,
            csiDriverAdjustments, Resource.kindTag, daemonSetAdjustments, manifestLabel,
            rbacAdjustments, updateCSIDriverName, updateWorkload, updateContainers,
            Bind.bind, Except.bind, Except.map, strTruthy] at h
    subst h
    simp [applyManipulations, adjustNamespace, Resource.namespaced, configureStorageClass,
            csiDriverAdjustments, Resource.kindTag, daemonSetAdjustments, manifestLabel,
            rbacAdjustments, updateCSIDriverName, updateWorkload, updateContainers,
            Bind.bind, Except.bind, Except.map, strTruthy]
  | some m =>
    cases hn : m.name with
    | none =>
      simp [applyManipulations, adjustNamespace, Resource.namespaced, configureStorageClass,
            csiDriverAdjustments, Resource.kindTag, daemonSetAdjustments, manifestLabel,
            rbacAdjustments, updateCSIDriverName, updateWorkload, updateContainers,
            Bind.bind, Except.bind, Except.map, strTruthy, hn] at h
      subst h
      simp [applyManipulations, adjustNamespace, Resource.namespaced, configureStorageClass,
            csiDriverAdjustments, Resource.kindTag, daemonSetAdjustments, manifestLabel,
            rbacAdjustments, updateCSIDriverName, updateWorkload, updateContainers,
            Bind.bind, Except.bind, Except.map, strTruthy, dictInsert_idem]
    | some n =>
      by_cases hne : n = ""
      · subst hne
        simp [applyManipulations, adjustNamespace, Resource.namespaced, configureStorageClass,
            csiDriverAdjustments, Resource.kindTag, daemonSetAdjustments, manifestLabel,
            rbacAdjustments, updateCSIDriverName, updateWorkload, updateContainers,
            Bind.bind, Except.bind, Except.map, strTruthy, hn] at h
        subst h
        simp [applyManipulations, adjustNamespace, Resource.namespaced, configureStorageClass,
            csiDriverAdjustments, Resource.kindTag, daemonSetAdjustments, manifestLabel,
            rbacAdjustments, updateCSIDriverName, updateWorkload, updateContainers,
            Bind.bind, Except.bind, Except.map, strTruthy, dictInsert_idem]
      · cases hd : csiDriverName cfg app with
        | none => simp [applyManipulations, adjustNamespace, Resource.namespaced, configureStorageClass,
            csiDriverAdjustments, Resource.kindTag, daemonSetAdjustments, manifestLabel,
            rbacAdjustments, updateCSIDriverName, updateWorkload, updateContainers,
            Bind.bind, Except.bind, Except.map, strTruthy, hn, hne, hd] at h
        | some d =>
          cases hscn : configGet cfg.storageClassName with
          | none =>
            simp [applyManipulations, adjustNamespace, Resource.namespaced, configureStorageClass,
            csiDriverAdjustments, Resource.kindTag, daemonSetAdjustments, manifestLabel,
            rbacAdjustments, updateCSIDriverName, updateWorkload, updateContainers,
            Bind.bind, Except.bind, Except.map, strTruthy, hn, hne, hd, hscn] at h
            subst h
            simp [applyManipulations, adjustNamespace, Resource.namespaced, configureStorageClass,
            csiDriverAdjustments, Resource.kindTag, daemonSetAdjustments, manifestLabel,
            rbacAdjustments, updateCSIDriverName, updateWorkload, updateContainers,
            Bind.bind, Except.bind, Except.map, strTruthy, hd, hscn, dictInsert_idem]
          | some s =>
            have hs : s ≠ "" := configGet_ne_empty hscn
            simp [applyManipulations, adjustNamespace, Resource.namespaced, configureStorageClass,
            csiDriverAdjustments, Resource.kindTag, daemonSetAdjustments, manifestLabel,
            rbacAdjustments, updateCSIDriverName, updateWorkload, updateContainers,
            Bind.bind, Except.bind, Except.map, strTruthy, hn, hne, hd, hscn] at h
            subst h
            simp [applyManipulations, adjustNamespace, Resource.namespaced, configureStorageClass,
            csiDriverAdjustments, Resource.kindTag, daemonSetAdjustments, manifestLabel,
            rbacAdjustments, updateCSIDriverName, updateWorkload, updateContainers,
            Bind.bind, Except.bind, Except.map, strTruthy, hd, hscn, hs, dictInsert_idem]

theorem pipeline_fix_statefulSet (cfg : Config) (app : String) (w : Option WorkloadSpec)
    (mo : Option ObjectMeta) (y : Resource)
    (h : applyManipulations cfg app { metadata := mo, data := .statefulSet w } = .ok y) :
    applyManipulations cfg app y = .ok y := by
  cases mo with
  | none =>
    simp [applyManipulations, adjustNamespace, Resource.namespaced, configureStorageClass,
            csiDriverAdjustments, Resource.kindTag, daemonSetAdjustments, manifestLabel,
            rbacAdjustments, updateCSIDriverName, updateWorkload, updateContainers,
            Bind.bind, Except.bind, Except.map, strTruthy] at h
    subst h
    simp [applyManipulations, adjustNamespace, Resource.namespaced, configureStorageClass,
            csiDriverAdjustments, Resource.kindTag, daemonSetAdjustments, manifestLabel,
            rbacAdjustments, updateCSIDriverName, updateWorkload, updateContainers,
            Bind.bind, Except.bind, Except.map, strTruthy]
  | some m =>
    cases hn : m.name with
    | none =>
      simp [applyManipulations, adjustNamespace, Resource.namespaced, configureStorageClass,
            csiDriverAdjustments, Resource.kindTag, daemonSetAdjustments, manifestLabel,
            rbacAdjustments, updateCSIDriverName, updateWorkload, updateContainers,
            Bind.bind, Except.bind, Except.map, strTruthy, hn] at h
      subst h
      simp [applyManipulations, adjustNamespace, Resource.namespaced, configureStorageClass,
            csiDriverAdjustments, Resource.kindTag, daemonSetAdjustments, manifestLabel,
            rbacAdjustments, updateCSIDriverName, updateWorkload, updateContainers,
            Bind.bind, Except.bind, Except.map, strTruthy, dictInsert_idem]
    | some n =>
      by_cases hne : n = ""
      · subst hne
        simp [applyManipulations, adjustNamespace, Resource.namespaced, configureStorageClass,
            csiDriverAdjustments, Resource.kindTag, daemonSetAdjustments, manifestLabel,
            rbacAdjustments, updateCSIDriverName, updateWorkload, updateContainers,
            Bind.bind, Except.bind, Except.map, strTruthy, hn] at h
        subst h
        simp [applyManipulations, adjustNamespace, Resource.namespaced, configureStorageClass,
            csiDriverAdjustments, Resource.kindTag, daemonSetAdjustments, manifestLabel,
            rbacAdjustments, updateCSIDriverName, updateWorkload, updateContainers,
            Bind.bind, Except.bind, Except.map, strTruthy, dictInsert_idem]
      · cases w with
        | none =>
          simp [applyManipulations, adjustNamespace, Resource.namespaced, configureStorageClass,
            csiDriverAdjustments, Resource.kindTag, daemonSetAdjustments, manifestLabel,
            rbacAdjustments, updateCSIDriverName, updateWorkload, updateContainers,
            Bind.bind, Except.bind, Except.map, strTruthy, hn, hne] at h
          subst h
          simp [applyManipulations, adjustNamespace, Resource.namespaced, configureStorageClass,
            csiDriverAdjustments, Resource.kindTag, daemonSetAdjustments, manifestLabel,
            rbacAdjustments, updateCSIDriverName, updateWorkload, updateContainers,
            Bind.bind, Except.bind, Except.map, strTruthy, hn, hne, dictInsert_idem]
        | some wspec =>
          cases wspec with
          | mk tmplOpt =>
            cases tmplOpt with
            | none => simp [applyManipulations, adjustNamespace, Resource.namespaced, configureStorageClass,
            csiDriverAdjustments, Resource.kindTag, daemonSetAdjustments, manifestLabel,
            rbacAdjustments, updateCSIDriverName, updateWorkload, updateContainers,
            Bind.bind, Except.bind, Except.map, strTruthy, hn, hne] at h
            | some tmpl =>
              cases tmpl with
              | mk pspecOpt =>
                cases pspecOpt with
                | none =>
                  simp [applyManipulations, adjustNamespace, Resource.namespaced, configureStorageClass,
            csiDriverAdjustments, Resource.kindTag, daemonSetAdjustments, manifestLabel,
            rbacAdjustments, updateCSIDriverName, updateWorkload, updateContainers,
            Bind.bind, Except.bind, Except.map, strTruthy, hn, hne] at h
                  subst h
                  simp [applyManipulations, adjustNamespace, Resource.namespaced, configureStorageClass,
            csiDriverAdjustments, Resource.kindTag, daemonSetAdjustments, manifestLabel,
            rbacAdjustments, updateCSIDriverName, updateWorkload, updateContainers,
            Bind.bind, Except.bind, Except.map, strTruthy, hn, hne, dictInsert_idem]
                | some pspec =>
                  cases pspec with
                  | mk contsOpt volsOpt nselOpt =>
                    cases contsOpt with
                    | none => simp [applyManipulations, adjustNamespace, Resource.namespaced, configureStorageClass,
            csiDriverAdjustments, Resource.kindTag, daemonSetAdjustments, manifestLabel,
            rbacAdjustments, updateCSIDriverName, updateWorkload, updateContainers,
            Bind.bind, Except.bind, Except.map, strTruthy, hn, hne] at h
                    | some cs =>
                      cases hneed : needsDriverName cs with
                      | false =>
                        simp [applyManipulations, adjustNamespace, Resource.namespaced, configureStorageClass,
            csiDriverAdjustments, Resource.kindTag, daemonSetAdjustments, manifestLabel,
            rbacAdjustments, updateCSIDriverName, updateWorkload, updateContainers,
            Bind.bind, Except.bind, Except.map, strTruthy, hn, hne, hneed] at h
                        subst h
                        simp [applyManipulations, adjustNamespace, Resource.namespaced, configureStorageClass,
            csiDriverAdjustments, Resource.kindTag, daemonSetAdjustments, manifestLabel,
            rbacAdjustments, updateCSIDriverName, updateWorkload, updateContainers,
            Bind.bind, Except.bind, Except.map, strTruthy, hn, hne, hneed, dictInsert_idem]
                      | true =>
                        cases hd : csiDriverName cfg app with
                        | none => simp [applyManipulations, adjustNamespace, Resource.namespaced, configureStorageClass,
            csiDriverAdjustments, Resource.kindTag, daemonSetAdjustments, manifestLabel,
            rbacAdjustments, updateCSIDriverName, updateWorkload, updateContainers,
            Bind.bind, Except.bind, Except.map, strTruthy, hn, hne, hneed, hd] at h
                        | some d =>
                          simp [applyManipulations, adjustNamespace, Resource.namespaced, configureStorageClass,
            csiDriverAdjustments, Resource.kindTag, daemonSetAdjustments, manifestLabel,
            rbacAdjustments, updateCSIDriverName, updateWorkload, updateContainers,
            Bind.bind, Except.bind, Except.map, strTruthy, hn, hne, hneed, hd] at h
                          subst h
                          simp [applyManipulations, adjustNamespace, Resource.namespaced, configureStorageClass,
            csiDriverAdjustments, Resource.kindTag, daemonSetAdjustments, manifestLabel,
            rbacAdjustments, updateCSIDriverName, updateWorkload, updateContainers,
            Bind.bind, Except.bind, Except.map, strTruthy, hn, hne, hd, dictInsert_idem,
                                needsDriverName_map_csi, hneed, List.map_map, patchCsiContainer_comp]


theorem mapSubjects_idem (ns : Option String) (l : List Subject) :
    List.map (patchSubject ns) (List.map (patchSubject ns) l) = List.map (patchSubject ns) l := by
  simp [List.map_map, patchSubject_comp]

theorem pipeline_fix_clusterRoleBinding (cfg : Config) (app : String)
    (subs : Option (List Subject)) (rr : RoleRef) (mo : Option ObjectMeta) (y : Resource)
    (hf : configGet cfg.rbacFormatter = none)
    (h : applyManipulations cfg app { metadata := mo, data := .clusterRoleBinding subs rr } = .ok y) :
    applyManipulations cfg app y = .ok y := by
  cases mo with
  | none =>
    simp [applyManipulations, adjustNamespace, Resource.namespaced, configureStorageClass,
            csiDriverAdjustments, Resource.kindTag, daemonSetAdjustments, manifestLabel,
            rbacAdjustments, rbacRename, updateCSIDriverName, updateWorkload, updateContainers,
            Bind.bind, Except.bind, Except.map, strTruthy, hf] at h
    subst h
    simp [applyManipulations, adjustNamespace, Resource.namespaced, configureStorageClass,
            csiDriverAdjustments, Resource.kindTag, daemonSetAdjustments, manifestLabel,
            rbacAdjustments, rbacRename, updateCSIDriverName, updateWorkload, updateContainers,
            Bind.bind, Except.bind, Except.map, strTruthy, hf]
  | some m =>
    cases hn : m.name with
    | none =>
      simp [applyManipulations, adjustNamespace, Resource.namespaced, configureStorageClass,
            csiDriverAdjustments, Resource.kindTag, daemonSetAdjustments, manifestLabel,
            rbacAdjustments, rbacRename, updateCSIDriverName, updateWorkload, updateContainers,
            Bind.bind, Except.bind, Except.map, strTruthy, hf, hn] at h
      subst h
      simp [applyManipulations, adjustNamespace, Resource.namespaced, configureStorageClass,
            csiDriverAdjustments, Resource.kindTag, daemonSetAdjustments, manifestLabel,
            rbacAdjustments, rbacRename, updateCSIDriverName, updateWorkload, updateContainers,
            Bind.bind, Except.bind, Except.map, strTruthy, hf, dictInsert_idem]
    | some n =>
      by_cases hne : n = ""
      · subst hne
        simp [applyManipulations, adjustNamespace, Resource.namespaced, configureStorageClass,
            csiDriverAdjustments, Resource.kindTag, daemonSetAdjustments, manifestLabel,
            rbacAdjustments, rbacRename, updateCSIDriverName, updateWorkload, updateContainers,
            Bind.bind, Except.bind, Except.map, strTruthy, hf, hn] at h
        subst h
        simp [applyManipulations, adjustNamespace, Resource.namespaced, configureStorageClass,
            csiDriverAdjustments, Resource.kindTag, daemonSetAdjustments, manifestLabel,
            rbacAdjustments, rbacRename, updateCSIDriverName, updateWorkload, updateContainers,
            Bind.bind, Except.bind, Except.map, strTruthy, hf, dictInsert_idem]
      · by_cases hrr : rr.kind = "ClusterRole"
        · cases subs with
          | none =>
            simp [applyManipulations, adjustNamespace, Resource.namespaced, configureStorageClass,
            csiDriverAdjustments, Resource.kindTag, daemonSetAdjustments, manifestLabel,
            rbacAdjustments, rbacRename, updateCSIDriverName, updateWorkload, updateContainers,
            Bind.bind, Except.bind, Except.map, strTruthy, hf, hn, hne, hrr] at h
            subst h
            simp [applyManipulations, adjustNamespace, Resource.namespaced, configureStorageClass,
            csiDriverAdjustments, Resource.kindTag, daemonSetAdjustments, manifestLabel,
            rbacAdjustments, rbacRename, updateCSIDriverName, updateWorkload, updateContainers,
            Bind.bind, Except.bind, Except.map, strTruthy, hf, hne, hrr, dictInsert_idem]
          | some l =>
            simp [applyManipulations, adjustNamespace, Resource.namespaced, configureStorageClass,
            csiDriverAdjustments, Resource.kindTag, daemonSetAdjustments, manifestLabel,
            rbacAdjustments, rbacRename, updateCSIDriverName, updateWorkload, updateContainers,
            Bind.bind, Except.bind, Except.map, strTruthy, hf, hn, hne, hrr] at h
            subst h
            simp [applyManipulations, adjustNamespace, Resource.namespaced, configureStorageClass,
            csiDriverAdjustments, Resource.kindTag, daemonSetAdjustments, manifestLabel,
            rbacAdjustments, rbacRename, updateCSIDriverName, updateWorkload, updateContainers,
            Bind.bind, Except.bind, Except.map, strTruthy, hf, hne, hrr, dictInsert_idem, mapSubjects_idem, patchSubject_idem]
        · cases subs with
          | none =>
            simp [applyManipulations, adjustNamespace, Resource.namespaced, configureStorageClass,
            csiDriverAdjustments, Resource.kindTag, daemonSetAdjustments, manifestLabel,
            rbacAdjustments, rbacRename, updateCSIDriverName, updateWorkload, updateContainers,
            Bind.bind, Except.bind, Except.map, strTruthy, hf, hn, hne, hrr] at h
            subst h
            simp [applyManipulations, adjustNamespace, Resource.namespaced, configureStorageClass,
            csiDriverAdjustments, Resource.kindTag, daemonSetAdjustments, manifestLabel,
            rbacAdjustments, rbacRename, updateCSIDriverName, updateWorkload, updateContainers,
            Bind.bind, Except.bind, Except.map, strTruthy, hf, hne, hrr, dictInsert_idem]
          | some l =>
            simp [applyManipulations, adjustNamespace, Resource.namespaced, configureStorageClass,
            csiDriverAdjustments, Resource.kindTag, daemonSetAdjustments, manifestLabel,
            rbacAdjustments, rbacRename, updateCSIDriverName, updateWorkload, updateContainers,
            Bind.bind, Except.bind, Except.map, strTruthy, hf, hn, hne, hrr] at h
            subst h
            simp [applyManipulations, adjustNamespace, Resource.namespaced, configureStorageClass,
            csiDriverAdjustments, Resource.kindTag, daemonSetAdjustments, manifestLabel,
            rbacAdjustments, rbacRename, updateCSIDriverName, updateWorkload, updateContainers,
            Bind.bind, Except.bind, Except.map, strTruthy, hf, hne, hrr, dictInsert_idem, mapSubjects_idem, patchSubject_idem]

theorem pipeline_fix_roleBinding (cfg : Config) (app : String)
    (subs : Option (List Subject)) (rr : RoleRef) (mo : Option ObjectMeta) (y : Resource)
    (hf : configGet cfg.rbacFormatter = none)
    (h : applyManipulations cfg app { metadata := mo, data := .roleBinding subs rr } = .ok y) :
    applyManipulations cfg app y = .ok y := by
  cases mo with
  | none =>
    simp [applyManipulations, adjustNamespace, Resource.namespaced, configureStorageClass,
            csiDriverAdjustments, Resource.kindTag, daemonSetAdjustments, manifestLabel,
            rbacAdjustments, rbacRename, updateCSIDriverName, updateWorkload, updateContainers,
            Bind.bind, Except.bind, Except.map, strTruthy, hf] at h
    subst h
    simp [applyManipulations, adjustNamespace, Resource.namespaced, configureStorageClass,
            csiDriverAdjustments, Resource.kindTag, daemonSetAdjustments, manifestLabel,
            rbacAdjustments, rbacRename, updateCSIDriverName, updateWorkload, updateContainers,
            Bind.bind, Except.bind, Except.map, strTruthy, hf]
  | some m =>
    cases hn : m.name with
    | none =>
      simp [applyManipulations, adjustNamespace, Resource.namespaced, configureStorageClass,
            csiDriverAdjustments, Resource.kindTag, daemonSetAdjustments, manifestLabel,
            rbacAdjustments, rbacRename, updateCSIDriverName, updateWorkload, updateContainers,
            Bind.bind, Except.bind, Except.map, strTruthy, hf, hn] at h
      subst h
      simp [applyManipulations, adjustNamespace, Resource.namespaced, configureStorageClass,
            csiDriverAdjustments, Resource.kindTag, daemonSetAdjustments, manifestLabel,
            rbacAdjustments, rbacRename, updateCSIDriverName, updateWorkload, updateContainers,
            Bind.bind, Except.bind, Except.map, strTruthy, hf, dictInsert_idem]
    | some n =>
      by_cases hne : n = ""
      · subst hne
        simp [applyManipulations, adjustNamespace, Resource.namespaced, configureStorageClass,
            csiDriverAdjustments, Resource.kindTag, daemonSetAdjustments, manifestLabel,
            rbacAdjustments, rbacRename, updateCSIDriverName, updateWorkload, updateContainers,
            Bind.bind, Except.bind, Except.map, strTruthy, hf, hn] at h
        subst h
        simp [applyManipulations, adjustNamespace, Resource.namespaced, configureStorageClass,
            csiDriverAdjustments, Resource.kindTag, daemonSetAdjustments, manifestLabel,
            rbacAdjustments, rbacRename, updateCSIDriverName, updateWorkload, updateContainers,
            Bind.bind, Except.bind, Except.map, strTruthy, hf, dictInsert_idem]
      · by_cases hrr : rr.kind = "ClusterRole"
        · cases subs with
          | none =>
            simp [applyManipulations, adjustNamespace, Resource.namespaced, configureStorageClass,
            csiDriverAdjustments, Resource.kindTag, daemonSetAdjustments, manifestLabel,
            rbacAdjustments, rbacRename, updateCSIDriverName, updateWorkload, updateContainers,
            Bind.bind, Except.bind, Except.map, strTruthy, hf, hn, hne, hrr] at h
            subst h
            simp [applyManipulations, adjustNamespace, Resource.namespaced, configureStorageClass,
            csiDriverAdjustments, Resource.kindTag, daemonSetAdjustments, manifestLabel,
            rbacAdjustments, rbacRename, updateCSIDriverName, updateWorkload, updateContainers,
            Bind.bind, Except.bind, Except.map, strTruthy, hf, hne, hrr, dictInsert_idem]
          | some l =>
            simp [applyManipulations, adjustNamespace, Resource.namespaced, configureStorageClass,
            csiDriverAdjustments, Resource.kindTag, daemonSetAdjustments, manifestLabel,
            rbacAdjustments, rbacRename, updateCSIDriverName, updateWorkload, updateContainers,
            Bind.bind, Except.bind, Except.map, strTruthy, hf, hn, hne, hrr] at h
            subst h
            simp [applyManipulations, adjustNamespace, Resource.namespaced, configureStorageClass,
            csiDriverAdjustments, Resource.kindTag, daemonSetAdjustments, manifestLabel,
            rbacAdjustments, rbacRename, updateCSIDriverName, updateWorkload, updateContainers,
            Bind.bind, Except.bind, Except.map, strTruthy, hf, hne, hrr, dictInsert_idem, mapSubjects_idem, patchSubject_idem]
        · cases subs with
          | none =>
            simp [applyManipulations, adjustNamespace, Resource.namespaced, configureStorageClass,
            csiDriverAdjustments, Resource.kindTag, daemonSetAdjustments, manifestLabel,
            rbacAdjustments, rbacRename, updateCSIDriverName, updateWorkload, updateContainers,
            Bind.bind, Except.bind, Except.map, strTruthy, hf, hn, hne, hrr] at h
            subst h
            simp [applyManipulations, adjustNamespace, Resource.namespaced, configureStorageClass,
            csiDriverAdjustments, Resource.kindTag, daemonSetAdjustments, manifestLabel,
            rbacAdjustments, rbacRename, updateCSIDriverName, updateWorkload, updateContainers,
            Bind.bind, Except.bind, Except.map, strTruthy, hf, hne, hrr, dictInsert_idem]
          | some l =>
            simp [applyManipulations, adjustNamespace, Resource.namespaced, configureStorageClass,
            csiDriverAdjustments, Resource.kindTag, daemonSetAdjustments, manifestLabel,
            rbacAdjustments, rbacRename, updateCSIDriverName, updateWorkload, updateContainers,
            Bind.bind, Except.bind, Except.map, strTruthy, hf, hn, hne, hrr] at h
            subst h
            simp [applyManipulations, adjustNamespace, Resource.namespaced, configureStorageClass,
            csiDriverAdjustments, Resource.kindTag, daemonSetAdjustments, manifestLabel,
            rbacAdjustments, rbacRename, updateCSIDriverName, updateWorkload, updateContainers,
            Bind.bind, Except.bind, Except.map, strTruthy, hf, hne, hrr, dictInsert_idem, mapSubjects_idem, patchSubject_idem]


theorem dsContainersStep_some (app : String) (cs : List Container) :
    dsContainersStep app (some cs) = some (patchRegistrarList app cs) := by
  cases cs <;> rfl

theorem pipeline_fix_daemonSet (cfg : Config) (app : String) (w : Option WorkloadSpec)
    (mo : Option ObjectMeta) (y : Resource)
    (h : applyManipulations cfg app { metadata := mo, data := .daemonSet w } = .ok y) :
    applyManipulations cfg app y = .ok y := by
  cases mo with
  | none =>
    simp [applyManipulations, adjustNamespace, Resource.namespaced, configureStorageClass,
            csiDriverAdjustments, Resource.kindTag, daemonSetAdjustments, manifestLabel,
            rbacAdjustments, rbacRename, updateCSIDriverName, updateWorkload, updateContainers,
            Bind.bind, Except.bind, Except.map, strTruthy] at h
    subst h
    simp [applyManipulations, adjustNamespace, Resource.namespaced, configureStorageClass,
            csiDriverAdjustments, Resource.kindTag, daemonSetAdjustments, manifestLabel,
            rbacAdjustments, rbacRename, updateCSIDriverName, updateWorkload, updateContainers,
            Bind.bind, Except.bind, Except.map, strTruthy]
  | some m =>
    cases hn : m.name with
    | none =>
      simp [applyManipulations, adjustNamespace, Resource.namespaced, configureStorageClass,
            csiDriverAdjustments, Resource.kindTag, daemonSetAdjustments, manifestLabel,
            rbacAdjustments, rbacRename, updateCSIDriverName, updateWorkload, updateContainers,
            Bind.bind, Except.bind, Except.map, strTruthy, hn] at h
      subst h
      simp [applyManipulations, adjustNamespace, Resource.namespaced, configureStorageClass,
            csiDriverAdjustments, Resource.kindTag, daemonSetAdjustments, manifestLabel,
            rbacAdjustments, rbacRename, updateCSIDriverName, updateWorkload, updateContainers,
            Bind.bind, Except.bind, Except.map, strTruthy, dictInsert_idem]
    | some n =>
      by_cases hne : n = ""
      · subst hne
        simp [applyManipulations, adjustNamespace, Resource.namespaced, configureStorageClass,
            csiDriverAdjustments, Resource.kindTag, daemonSetAdjustments, manifestLabel,
            rbacAdjustments, rbacRename, updateCSIDriverName, updateWorkload, updateContainers,
            Bind.bind, Except.bind, Except.map, strTruthy, hn] at h
        subst h
        simp [applyManipulations, adjustNamespace, Resource.namespaced, configureStorageClass,
            csiDriverAdjustments, Resource.kindTag, daemonSetAdjustments, manifestLabel,
            rbacAdjustments, rbacRename, updateCSIDriverName, updateWorkload, updateContainers,
            Bind.bind, Except.bind, Except.map, strTruthy, dictInsert_idem]
      · by_cases hrw : n = "rawfile-csi-node"
        · subst hrw
          cases w with
          | none =>
            simp [applyManipulations, adjustNamespace, Resource.namespaced, configureStorageClass,
            csiDriverAdjustments, Resource.kindTag, daemonSetAdjustments, manifestLabel,
            rbacAdjustments, rbacRename, updateCSIDriverName, updateWorkload, updateContainers,
            Bind.bind, Except.bind, Except.map, strTruthy, hn, hne] at h
            subst h
            simp [applyManipulations, adjustNamespace, Resource.namespaced, configureStorageClass,
            csiDriverAdjustments, Resource.kindTag, daemonSetAdjustments, manifestLabel,
            rbacAdjustments, rbacRename, updateCSIDriverName, updateWorkload, updateContainers,
            Bind.bind, Except.bind, Except.map, strTruthy, hn, hne, dictInsert_idem]
          | some wspec =>
            cases wspec with
            | mk tmplOpt =>
              cases tmplOpt with
              | none => simp [applyManipulations, adjustNamespace, Resource.namespaced, configureStorageClass,
            csiDriverAdjustments, Resource.kindTag, daemonSetAdjustments, manifestLabel,
            rbacAdjustments, rbacRename, updateCSIDriverName, updateWorkload, updateContainers,
            Bind.bind, Except.bind, Except.map, strTruthy, hn, hne] at h
              | some tmpl =>
                cases tmpl with
                | mk pspecOpt =>
                  cases pspecOpt with
                  | none =>
                    simp [applyManipulations, adjustNamespace, Resource.namespaced, configureStorageClass,
            csiDriverAdjustments, Resource.kindTag, daemonSetAdjustments, manifestLabel,
            rbacAdjustments, rbacRename, updateCSIDriverName, updateWorkload, updateContainers,
            Bind.bind, Except.bind, Except.map, strTruthy, hn, hne] at h
                    subst h
                    simp [applyManipulations, adjustNamespace, Resource.namespaced, configureStorageClass,
            csiDriverAdjustments, Resource.kindTag, daemonSetAdjustments, manifestLabel,
            rbacAdjustments, rbacRename, updateCSIDriverName, updateWorkload, updateContainers,
            Bind.bind, Except.bind, Except.map, strTruthy, hn, hne, dictInsert_idem]
                  | some pspec =>
                    cases pspec with
                    | mk contsOpt volsOpt nselOpt =>
                      cases volsOpt with
                      | none =>
                        cases contsOpt with
                        | none => simp [applyManipulations, adjustNamespace, Resource.namespaced, configureStorageClass,
            csiDriverAdjustments, Resource.kindTag, daemonSetAdjustments, manifestLabel,
            rbacAdjustments, rbacRename, updateCSIDriverName, updateWorkload, updateContainers,
            Bind.bind, Except.bind, Except.map, strTruthy, hn, hne] at h
                        | some cs =>
                          cases hneed : needsDriverName cs with
                          | false =>
                            simp [applyManipulations, adjustNamespace, Resource.namespaced, configureStorageClass,
            csiDriverAdjustments, Resource.kindTag, daemonSetAdjustments, manifestLabel,
            rbacAdjustments, rbacRename, updateCSIDriverName, updateWorkload, updateContainers,
            Bind.bind, Except.bind, Except.map, strTruthy, hn, hne, hneed] at h
                            subst h
                            simp [applyManipulations, adjustNamespace, Resource.namespaced, configureStorageClass,
            csiDriverAdjustments, Resource.kindTag, daemonSetAdjustments, manifestLabel,
            rbacAdjustments, rbacRename, updateCSIDriverName, updateWorkload, updateContainers,
            Bind.bind, Except.bind, Except.map, strTruthy, hn, hne, hneed, dictInsert_idem]
                          | true =>
                            cases hd : csiDriverName cfg app with
                            | none => simp [applyManipulations, adjustNamespace, Resource.namespaced, configureStorageClass,
            csiDriverAdjustments, Resource.kindTag, daemonSetAdjustments, manifestLabel,
            rbacAdjustments, rbacRename, updateCSIDriverName, updateWorkload, updateContainers,
            Bind.bind, Except.bind, Except.map, strTruthy, hn, hne, hneed, hd] at h
                            | some d =>
                              simp [applyManipulations, adjustNamespace, Resource.namespaced, configureStorageClass,
            csiDriverAdjustments, Resource.kindTag, daemonSetAdjustments, manifestLabel,
            rbacAdjustments, rbacRename, updateCSIDriverName, updateWorkload, updateContainers,
            Bind.bind, Except.bind, Except.map, strTruthy, hn, hne, hneed, hd] at h
                              subst h
                              simp [applyManipulations, adjustNamespace, Resource.namespaced, configureStorageClass,
            csiDriverAdjustments, Resource.kindTag, daemonSetAdjustments, manifestLabel,
            rbacAdjustments, rbacRename, updateCSIDriverName, updateWorkload, updateContainers,
            Bind.bind, Except.bind, Except.map, strTruthy, hn, hne, hd, dictInsert_idem,
                                    needsDriverName_map_csi, hneed, List.map_map, patchCsiContainer_comp]
                      | some vols =>
                        cases vols with
                        | nil =>
                          cases contsOpt with
                          | none => simp [applyManipulations, adjustNamespace, Resource.namespaced, configureStorageClass,
            csiDriverAdjustments, Resource.kindTag, daemonSetAdjustments, manifestLabel,
            rbacAdjustments, rbacRename, updateCSIDriverName, updateWorkload, updateContainers,
            Bind.bind, Except.bind, Except.map, strTruthy, hn, hne] at h
                          | some cs =>
                            cases hneed : needsDriverName cs with
                            | false =>
                              simp [applyManipulations, adjustNamespace, Resource.namespaced, configureStorageClass,
            csiDriverAdjustments, Resource.kindTag, daemonSetAdjustments, manifestLabel,
            rbacAdjustments, rbacRename, updateCSIDriverName, updateWorkload, updateContainers,
            Bind.bind, Except.bind, Except.map, strTruthy, hn, hne, hneed] at h
                              subst h
                              simp [applyManipulations, adjustNamespace, Resource.namespaced, configureStorageClass,
            csiDriverAdjustments, Resource.kindTag, daemonSetAdjustments, manifestLabel,
            rbacAdjustments, rbacRename, updateCSIDriverName, updateWorkload, updateContainers,
            Bind.bind, Except.bind, Except.map, strTruthy, hn, hne, hneed, dictInsert_idem]
                            | true =>
                              cases hd : csiDriverName cfg app with
                              | none => simp [applyManipulations, adjustNamespace, Resource.namespaced, configureStorageClass,
            csiDriverAdjustments, Resource.kindTag, daemonSetAdjustments, manifestLabel,
            rbacAdjustments, rbacRename, updateCSIDriverName, updateWorkload, updateContainers,
            Bind.bind, Except.bind, Except.map, strTruthy, hn, hne, hneed, hd] at h
                              | some d =>
                                simp [applyManipulations, adjustNamespace, Resource.namespaced, configureStorageClass,
            csiDriverAdjustments, Resource.kindTag, daemonSetAdjustments, manifestLabel,
            rbacAdjustments, rbacRename, updateCSIDriverName, updateWorkload, updateContainers,
            Bind.bind, Except.bind, Except.map, strTruthy, hn, hne, hneed, hd] at h
                                subst h
                                simp [applyManipulations, adjustNamespace, Resource.namespaced, configureStorageClass,
            csiDriverAdjustments, Resource.kindTag, daemonSetAdjustments, manifestLabel,
            rbacAdjustments, rbacRename, updateCSIDriverName, updateWorkload, updateContainers,
            Bind.bind, Except.bind, Except.map, strTruthy, hn, hne, hd, dictInsert_idem,
                                      needsDriverName_map_csi, hneed, List.map_map, patchCsiContainer_comp]
                        | cons v vs =>
                          cases contsOpt with
                          | none => simp [applyManipulations, adjustNamespace, Resource.namespaced, configureStorageClass,
            csiDriverAdjustments, Resource.kindTag, daemonSetAdjustments, manifestLabel,
            rbacAdjustments, rbacRename, updateCSIDriverName, updateWorkload, updateContainers,
            Bind.bind, Except.bind, Except.map, strTruthy, hn, hne, dsContainersStep] at h
                          | some cs =>
                            cases hneed : needsDriverName cs with
                            | false =>
                              simp [applyManipulations, adjustNamespace, Resource.namespaced, configureStorageClass,
            csiDriverAdjustments, Resource.kindTag, daemonSetAdjustments, manifestLabel,
            rbacAdjustments, rbacRename, updateCSIDriverName, updateWorkload, updateContainers,
            Bind.bind, Except.bind, Except.map, strTruthy, hn, hne, dsContainersStep_some,
                                    needsDriverName_patchRegistrarList, hneed] at h
                              subst h
                              simp [applyManipulations, adjustNamespace, Resource.namespaced, configureStorageClass,
            csiDriverAdjustments, Resource.kindTag, daemonSetAdjustments, manifestLabel,
            rbacAdjustments, rbacRename, updateCSIDriverName, updateWorkload, updateContainers,
            Bind.bind, Except.bind, Except.map, strTruthy, hn, hne, dictInsert_idem, dsContainersStep_some,
                                    patchRegistrarList_idem, needsDriverName_patchRegistrarList, hneed,
                                    List.map_map, patchVolume_comp, patchVolume_idem, patchRegistrarList_map_csi]
                            | true =>
                              cases hd : csiDriverName cfg app with
                              | none =>
                                simp [applyManipulations, adjustNamespace, Resource.namespaced, configureStorageClass,
            csiDriverAdjustments, Resource.kindTag, daemonSetAdjustments, manifestLabel,
            rbacAdjustments, rbacRename, updateCSIDriverName, updateWorkload, updateContainers,
            Bind.bind, Except.bind, Except.map, strTruthy, hn, hne, dsContainersStep_some,
                                      needsDriverName_patchRegistrarList, hneed, hd] at h
                              | some d =>
                                simp [applyManipulations, adjustNamespace, Resource.namespaced, configureStorageClass,
            csiDriverAdjustments, Resource.kindTag, daemonSetAdjustments, manifestLabel,
            rbacAdjustments, rbacRename, updateCSIDriverName, updateWorkload, updateContainers,
            Bind.bind, Except.bind, Except.map, strTruthy, hn, hne, dsContainersStep_some,
                                      needsDriverName_patchRegistrarList, hneed, hd] at h
                                subst h
                                simp [applyManipulations, adjustNamespace, Resource.namespaced, configureStorageClass,
            csiDriverAdjustments, Resource.kindTag, daemonSetAdjustments, manifestLabel,
            rbacAdjustments, rbacRename, updateCSIDriverName, updateWorkload, updateContainers,
            Bind.bind, Except.bind, Except.map, strTruthy, hn, hne, hd, dictInsert_idem, dsContainersStep_some,
                                      patchRegistrarList_map_csi, patchRegistrarList_idem,
                                      needsDriverName_patchRegistrarList, needsDriverName_map_csi, hneed,
                                      List.map_map, patchVolume_comp, patchVolume_idem, patchCsiContainer_comp]
        · cases w with
          | none =>
            simp [applyManipulations, adjustNamespace, Resource.namespaced, configureStorageClass,
            csiDriverAdjustments, Resource.kindTag, daemonSetAdjustments, manifestLabel,
            rbacAdjustments, rbacRename, updateCSIDriverName, updateWorkload, updateContainers,
            Bind.bind, Except.bind, Except.map, strTruthy, hn, hne, hrw] at h
            subst h
            simp [applyManipulations, adjustNamespace, Resource.namespaced, configureStorageClass,
            csiDriverAdjustments, Resource.kindTag, daemonSetAdjustments, manifestLabel,
            rbacAdjustments, rbacRename, updateCSIDriverName, updateWorkload, updateContainers,
            Bind.bind, Except.bind, Except.map, strTruthy, hn, hne, hrw, dictInsert_idem]
          | some wspec =>
            cases wspec with
            | mk tmplOpt =>
              cases tmplOpt with
              | none => simp [applyManipulations, adjustNamespace, Resource.namespaced, configureStorageClass,
            csiDriverAdjustments, Resource.kindTag, daemonSetAdjustments, manifestLabel,
            rbacAdjustments, rbacRename, updateCSIDriverName, updateWorkload, updateContainers,
            Bind.bind, Except.bind, Except.map, strTruthy, hn, hne, hrw] at h
              | some tmpl =>
                cases tmpl with
                | mk pspecOpt =>
                  cases pspecOpt with
                  | none =>
                    simp [applyManipulations, adjustNamespace, Resource.namespaced, configureStorageClass,
            csiDriverAdjustments, Resource.kindTag, daemonSetAdjustments, manifestLabel,
            rbacAdjustments, rbacRename, updateCSIDriverName, updateWorkload, updateContainers,
            Bind.bind, Except.bind, Except.map, strTruthy, hn, hne, hrw] at h
                    subst h
                    simp [applyManipulations, adjustNamespace, Resource.namespaced, configureStorageClass,
            csiDriverAdjustments, Resource.kindTag, daemonSetAdjustments, manifestLabel,
            rbacAdjustments, rbacRename, updateCSIDriverName, updateWorkload, updateContainers,
            Bind.bind, Except.bind, Except.map, strTruthy, hn, hne, hrw, dictInsert_idem]
                  | some pspec =>
                    cases pspec with
                    | mk contsOpt volsOpt nselOpt =>
                      cases contsOpt with
                      | none => simp [applyManipulations, adjustNamespace, Resource.namespaced, configureStorageClass,
            csiDriverAdjustments, Resource.kindTag, daemonSetAdjustments, manifestLabel,
            rbacAdjustments, rbacRename, updateCSIDriverName, updateWorkload, updateContainers,
            Bind.bind, Except.bind, Except.map, strTruthy, hn, hne, hrw] at h
                      | some cs =>
                        cases hneed : needsDriverName cs with
                        | false =>
                          simp [applyManipulations, adjustNamespace, Resource.namespaced, configureStorageClass,
            csiDriverAdjustments, Resource.kindTag, daemonSetAdjustments, manifestLabel,
            rbacAdjustments, rbacRename, updateCSIDriverName, updateWorkload, updateContainers,
            Bind.bind, Except.bind, Except.map, strTruthy, hn, hne, hrw, hneed] at h
                          subst h
                          simp [applyManipulations, adjustNamespace, Resource.namespaced, configureStorageClass,
            csiDriverAdjustments, Resource.kindTag, daemonSetAdjustments, manifestLabel,
            rbacAdjustments, rbacRename, updateCSIDriverName, updateWorkload, updateContainers,
            Bind.bind, Except.bind, Except.map, strTruthy, hn, hne, hrw, hneed, dictInsert_idem]
                        | true =>
                          cases hd : csiDriverName cfg app with
                          | none => simp [applyManipulations, adjustNamespace, Resource.namespaced, configureStorageClass,
            csiDriverAdjustments, Resource.kindTag, daemonSetAdjustments, manifestLabel,
            rbacAdjustments, rbacRename, updateCSIDriverName, updateWorkload, updateContainers,
            Bind.bind, Except.bind, Except.map, strTruthy, hn, hne, hrw, hneed, hd] at h
                          | some d =>
                            simp [applyManipulations, adjustNamespace, Resource.namespaced, configureStorageClass,
            csiDriverAdjustments, Resource.kindTag, daemonSetAdjustments, manifestLabel,
            rbacAdjustments, rbacRename, updateCSIDriverName, updateWorkload, updateContainers,
            Bind.bind, Except.bind, Except.map, strTruthy, hn, hne, hrw, hneed, hd] at h
                            subst h
                            simp [applyManipulations, adjustNamespace, Resource.namespaced, configureStorageClass,
            csiDriverAdjustments, Resource.kindTag, daemonSetAdjustments, manifestLabel,
            rbacAdjustments, rbacRename, updateCSIDriverName, updateWorkload, updateContainers,
            Bind.bind, Except.bind, Except.map, strTruthy, hn, hne, hrw, hd, dictInsert_idem,
                                  needsDriverName_map_csi, hneed, List.map_map, patchCsiContainer_comp]


theorem pipeline_fix_clusterRole (cfg : Config) (app : String) (mo : Option ObjectMeta) (y : Resource)
    (hf : configGet cfg.rbacFormatter = none)
    (h : applyManipulations cfg app { metadata := mo, data := .clusterRole } = .ok y) :
    applyManipulations cfg app y = .ok y := by
  cases mo with
  | none =>
    simp [applyManipulations, adjustNamespace, Resource.namespaced, configureStorageClass,
            csiDriverAdjustments, Resource.kindTag, daemonSetAdjustments, manifestLabel,
            rbacAdjustments, rbacRename, updateCSIDriverName, updateWorkload, updateContainers,
            Bind.bind, Except.bind, Except.map, strTruthy, hf] at h
    subst h
    simp [applyManipulations, adjustNamespace, Resource.namespaced, configureStorageClass,
            csiDriverAdjustments, Resource.kindTag, daemonSetAdjustments, manifestLabel,
            rbacAdjustments, rbacRename, updateCSIDriverName, updateWorkload, updateContainers,
            Bind.bind, Except.bind, Except.map, strTruthy, hf]
  | some m =>
    cases hn : m.name with
    | none =>
      simp [applyManipulations, adjustNamespace, Resource.namespaced, configureStorageClass,
            csiDriverAdjustments, Resource.kindTag, daemonSetAdjustments, manifestLabel,
            rbacAdjustments, rbacRename, updateCSIDriverName, updateWorkload, updateContainers,
            Bind.bind, Except.bind, Except.map, strTruthy, hf, hn] at h
      subst h
      simp [applyManipulations, adjustNamespace, Resource.namespaced, configureStorageClass,
            csiDriverAdjustments, Resource.kindTag, daemonSetAdjustments, manifestLabel,
            rbacAdjustments, rbacRename, updateCSIDriverName, updateWorkload, updateContainers,
            Bind.bind, Except.bind, Except.map, strTruthy, hf, dictInsert_idem]
    | some n =>
      by_cases hne : n = ""
      · subst hne
        simp [applyManipulations, adjustNamespace, Resource.namespaced, configureStorageClass,
            csiDriverAdjustments, Resource.kindTag, daemonSetAdjustments, manifestLabel,
            rbacAdjustments, rbacRename, updateCSIDriverName, updateWorkload, updateContainers,
            Bind.bind, Except.bind, Except.map, strTruthy, hf, hn] at h
        subst h
        simp [applyManipulations, adjustNamespace, Resource.namespaced, configureStorageClass,
            csiDriverAdjustments, Resource.kindTag, daemonSetAdjustments, manifestLabel,
            rbacAdjustments, rbacRename, updateCSIDriverName, updateWorkload, updateContainers,
            Bind.bind, Except.bind, Except.map, strTruthy, hf, dictInsert_idem]
      · simp [applyManipulations, adjustNamespace, Resource.namespaced, configureStorageClass,
            csiDriverAdjustments, Resource.kindTag, daemonSetAdjustments, manifestLabel,
            rbacAdjustments, rbacRename, updateCSIDriverName, updateWorkload, updateContainers,
            Bind.bind, Except.bind, Except.map, strTruthy, hf, hn, hne] at h
        subst h
        simp [applyManipulations, adjustNamespace, Resource.namespaced, configureStorageClass,
            csiDriverAdjustments, Resource.kindTag, daemonSetAdjustments, manifestLabel,
            rbacAdjustments, rbacRename, updateCSIDriverName, updateWorkload, updateContainers,
            Bind.bind, Except.bind, Except.map, strTruthy, hf, hne, dictInsert_idem]

theorem pipeline_fix (cfg : Config) (app : String) (r y : Resource)
    (hf : configGet cfg.rbacFormatter = none)
    (h : applyManipulations cfg app r = .ok y) :
    applyManipulations cfg app y = .ok y := by
  obtain ⟨mo, data⟩ := r
  cases data with
  | storageClass p rp => exact pipeline_fix_storageClass cfg app p rp mo y h
  | daemonSet w => exact pipeline_fix_daemonSet cfg app w mo y h
  | statefulSet w => exact pipeline_fix_statefulSet cfg app w mo y h
  | csiDriver => exact pipeline_fix_csiDriver cfg app mo y h
  | clusterRole => exact pipeline_fix_clusterRole cfg app mo y hf h
  | clusterRoleBinding subs rr => exact pipeline_fix_clusterRoleBinding cfg app subs rr mo y hf h
  | roleBinding subs rr => exact pipeline_fix_roleBinding cfg app subs rr mo y hf h
  | otherKind k b => exact pipeline_fix_otherKind cfg app k b mo y h

/-- C4 (amended): whenever the rbac-name-formatter option is unset, the
full patch pipeline (namespace rewrite, storage-class adjust, CSI driver
adjustments, DaemonSet adjustments, ownership label, RBAC adjustments,
CSI driver name update, in declared order) is idempotent on every catalog:
a second application returns the first application's output unchanged.
With a formatter set, the RBAC rename composes with itself and idempotence
fails. -/
theorem patch_pipeline_idempotent_rbac_unset (cfg : Config) (app : String) (rs rs2 : List Resource)
    (hf : configGet cfg.rbacFormatter = none)
    (h : patchCatalog cfg app rs = .ok rs2) : patchCatalog cfg app rs2 = .ok rs2 := by
  induction rs generalizing rs2 with
  | nil =>
    rw [patchCatalog, List.mapM_nil] at h
    simp [pure, Except.pure] at h
    subst h
    rw [patchCatalog, List.mapM_nil]
    rfl
  | cons r rest ih =>
    rw [patchCatalog, List.mapM_cons] at h
    cases hr : applyManipulations cfg app r with
    | error e =>
      rw [hr] at h
      simp [Bind.bind, Except.bind] at h
    | ok z =>
      rw [hr] at h
      cases hrest : rest.mapM (applyManipulations cfg app) with
      | error e =>
        rw [hrest] at h
        simp [Bind.bind, Except.bind] at h
      | ok zs =>
        rw [hrest] at h
        simp [Bind.bind, Except.bind, pure, Except.pure] at h
        subst h
        have hz := pipeline_fix cfg app r z hf hr
        have hzs := ih zs hrest
        rw [patchCatalog, List.mapM_cons, hz]
        rw [patchCatalog] at hzs
        rw [hzs]
        rfl


/-- C4 counterexample: with rbac-name-formatter `"{app}-{name}"` and app
`"foo"`, one pass renames the ClusterRole `"reader"` to `"foo-reader"` and
a second pass renames it again to `"foo-foo-reader"`, so applying the
full patch pipeline twice differs from applying it once. -/
theorem patch_pipeline_not_idempotent :
    patchCatalog { cfgNone with rbacFormatter := some "{app}-{name}" } "foo"
      [{ metadata := some { name := some "reader", namespaceOpt := none, labels := [] }, data := .clusterRole }] =
      .ok [{ metadata := some { name := some "foo-reader", namespaceOpt := none, labels := [("juju.io/manifest", "rawfile-local-pv")] }, data := .clusterRole }] ∧
    patchCatalog { cfgNone with rbacFormatter := some "{app}-{name}" } "foo"
      [{ metadata := some { name := some "foo-reader", namespaceOpt := none, labels := [("juju.io/manifest", "rawfile-local-pv")] }, data := .clusterRole }] =
      .ok [{ metadata := some { name := some "foo-foo-reader", namespaceOpt := none, labels := [("juju.io/manifest", "rawfile-local-pv")] }, data := .clusterRole }] ∧
    ([{ metadata := some { name := some "foo-reader", namespaceOpt := none, labels := [("juju.io/manifest", "rawfile-local-pv")] }, data := .clusterRole }] :
        List Resource) ≠
      [{ metadata := some { name := some "foo-foo-reader", namespaceOpt := none, labels := [("juju.io/manifest", "rawfile-local-pv")] }, data := .clusterRole }] := by
  exact ⟨rfl, rfl, by decide⟩

/-- Witness for `patch_pipeline_idempotent_rbac_unset` at a concrete
catalog with every option unset. -/
theorem patch_pipeline_idempotent_rbac_unset_witness :
    patchCatalog cfgNone "foo"
      [{ metadata := some { name := some "reader", namespaceOpt := none, labels := [("juju.io/manifest", "rawfile-local-pv")] }, data := .clusterRole }] =
      .ok [{ metadata := some { name := some "reader", namespaceOpt := none, labels := [("juju.io/manifest", "rawfile-local-pv")] }, data := .clusterRole }] :=
  patch_pipeline_idempotent_rbac_unset cfgNone "foo"
    [{ metadata := some { name := some "reader", namespaceOpt := none, labels := [] }, data := .clusterRole }] _ rfl rfl


end RawfilePV
